import Mathlib

/-!
Verification development for the RCP chatbot core (context merge engine,
relative-session resolver, row filter/fetch, aggregation/trend engine,
session comparator).  The Python sources are shallowly embedded: strings are
processed as `List Char`, pandas timestamps are abstracted to `ℕ` ordinals
(`Option ℕ` with `none` for `NaT`), floats to `ℚ` with an explicit `RawVal`
type for NaN/inf/non-numeric source cells, and Python's single-element error
lists / error dicts to `Except String`.
-/

namespace RCP

/-! ### Character and string utilities (Python `str` / `re` semantics, ASCII) -/

/-- Python `str.lower` for ASCII characters. -/
def charLower (c : Char) : Char :=
  if 'A' ≤ c ∧ c ≤ 'Z' then Char.ofNat (c.toNat + 32) else c

/-- Word character in the sense of the regex class `\w` (ASCII). -/
def isWordChar (c : Char) : Bool := c.isAlphanum || c = '_'

/-- Whitespace in the sense of the regex class `\s` (ASCII). -/
def isSpaceC (c : Char) : Bool :=
  c = ' ' || c = '\t' || c = '\n' || c = '\x0d' || c = '\x0b' || c = '\x0c'

def lowerList (l : List Char) : List Char := l.map charLower

/-- Python `str.strip`. -/
def stripList (l : List Char) : List Char :=
  ((l.dropWhile isSpaceC).reverse.dropWhile isSpaceC).reverse

def pyLower (s : String) : String := ⟨lowerList s.data⟩

def pyStrip (s : String) : String := ⟨stripList s.data⟩

/-- Value of a digit string, as produced by Python `int(...)` on `\d+`. -/
def digitsToNat (l : List Char) : ℕ :=
  l.foldl (fun acc c => 10 * acc + (c.toNat - 48)) 0

/-- Python substring containment: `needle in hay`. -/
def isInfixL (needle : List Char) : List Char → Bool
  | [] => needle.isEmpty
  | c :: rest => needle.isPrefixOf (c :: rest) || isInfixL needle rest

/-- `re` word boundary after a match that ends in a word character:
the next character, if any, must not be a word character. -/
def boundaryAfterOk (cs : List Char) : Bool :=
  match cs with
  | [] => true
  | d :: _ => !(isWordChar d)

/-- Match a literal token made of word characters at the head of `cs`,
requiring a word boundary after it (the boundary before is the scanner's
responsibility). -/
def tokenAt (tok cs : List Char) : Bool :=
  tok.isPrefixOf cs && boundaryAfterOk (cs.drop tok.length)

/-- `re.search(r"\btok\b", cs)` for a token of word characters: scan every
position, tracking whether the previous character is a word character. -/
def hasWordToken (tok : List Char) : List Char → Bool → Bool
  | [], _ => false
  | c :: rest, prevWord =>
    ((!prevWord) && tokenAt tok (c :: rest)) || hasWordToken tok rest (isWordChar c)

def findWordToken (tok cs : List Char) : Bool := hasWordToken tok cs false

/-- One step of `_normalize_alias_text`: `[_-]` becomes a space. -/
def normSep (c : Char) : Char := if c = '_' ∨ c = '-' then ' ' else c

/-- Collapse runs of whitespace to a single space (`re.sub(r"\s+", " ", ·)`). -/
def collapseWsAux : List Char → Bool → List Char
  | [], _ => []
  | c :: rest, prevSpace =>
    if isSpaceC c then
      if prevSpace then collapseWsAux rest true
      else ' ' :: collapseWsAux rest true
    else c :: collapseWsAux rest false

/-- `_normalize_alias_text`: lowercase, `[_-]+` to a space, collapse
whitespace, strip. -/
def normalizeAliasList (l : List Char) : List Char :=
  stripList (collapseWsAux ((lowerList l).map normSep) false)

def normalize_alias_text (s : String) : String := ⟨normalizeAliasList s.data⟩

/-! ### Session-number parsing (`\bsession[_\s]*(\d+)\b`) -/

/-- Separator class `[_\s]` used between "session" and the number. -/
def isSepC (c : Char) : Bool := c = '_' || isSpaceC c

/-- After a keyword, skip `[_\s]*` (or any separator class), read `(\d+)`,
and require a word boundary after the digits.  Returns the digit group and
the rest of the input after the digits. -/
def matchSepDigitsGroup (sep : Char → Bool) (r : List Char) : Option (List Char × List Char) :=
  let r2 := r.dropWhile sep
  let ds := r2.takeWhile Char.isDigit
  if ds.isEmpty then none
  else
    let rest := r2.drop ds.length
    if boundaryAfterOk rest then some (ds, rest) else none

/-- Match `session[_\s]*(\d+)\b` at the head of `cs` (which must already be
lowercased; the boundary before `session` is the scanner's responsibility). -/
def matchSessionAt (cs : List Char) : Option ℕ :=
  if ("session".data).isPrefixOf cs then
    (matchSepDigitsGroup isSepC (cs.drop 7)).map (fun p => digitsToNat p.1)
  else none

def findSessionNumAux : List Char → Bool → Option ℕ
  | [], _ => none
  | c :: rest, prevWord =>
    match (if prevWord then none else matchSessionAt (c :: rest)) with
    | some n => some n
    | none => findSessionNumAux rest (isWordChar c)

/-- `re.search(r"\bsession[_\s]*(\d+)\b", str(s).lower())` → `int(group(1))`. -/
def session_number_str (s : String) : Option ℕ :=
  findSessionNumAux (lowerList s.data) false

/-- `session_number` from `query_engine.py` (argument `Optional[str]`). -/
def session_number (s : Option String) : Option ℕ :=
  match s with
  | none => none
  | some s => session_number_str s

/-- Match `sessions?[_\s]*(\d+)\b` at the head of lowercased `cs`
(the `s?` is tried greedily first, with regex backtracking). -/
def matchSessionsGroupAt (cs : List Char) : Option (List Char × List Char) :=
  if ("session".data).isPrefixOf cs then
    let r1 := cs.drop 7
    match r1 with
    | 's' :: r1tail => (matchSepDigitsGroup isSepC r1tail) <|> (matchSepDigitsGroup isSepC r1)
    | _ => matchSepDigitsGroup isSepC r1
  else none

/-! ### Generic regex scanners (`re.search` / `re.finditer` / `re.findall`) -/

/-- `re.search` as a Boolean: does `m` match at some position with a word
boundary before it?  (All patterns scanned this way begin with a word
character.) -/
def scanHasMatch {α : Type} (m : List Char → Option α) : List Char → Bool → Bool
  | [], _ => false
  | c :: rest, prevWord =>
    ((!prevWord) && (m (c :: rest)).isSome) || scanHasMatch m rest (isWordChar c)

/-- First match's group (`re.search(...).group(1)`). -/
def scanFirstGroup (m : List Char → Option (List Char × List Char)) :
    List Char → Bool → Option (List Char)
  | [], _ => none
  | c :: rest, prevWord =>
    match (if prevWord then none else m (c :: rest)) with
    | some (g, _) => some g
    | none => scanFirstGroup m rest (isWordChar c)

/-- `re.findall`: all groups of non-overlapping matches, scanning resumes
after each match (`skip` counts characters still inside the last match). -/
def scanGroupsAux (m : List Char → Option (List Char × List Char)) :
    List Char → Bool → ℕ → List (List Char)
  | [], _, _ => []
  | c :: rest, prevWord, skip =>
    match skip with
    | Nat.succ k => scanGroupsAux m rest (isWordChar c) k
    | 0 =>
      match (if prevWord then none else m (c :: rest)) with
      | some (g, after) =>
        g :: scanGroupsAux m rest (isWordChar c) ((c :: rest).length - after.length - 1)
      | none => scanGroupsAux m rest (isWordChar c) 0

def scanGroups (m : List Char → Option (List Char × List Char)) (cs : List Char) :
    List (List Char) :=
  scanGroupsAux m cs false 0

/-- `re.finditer` spans `(start, end)` of non-overlapping matches; the
matcher returns the rest of the input after the match. -/
def scanSpansAux (m : List Char → Option (List Char)) :
    List Char → Bool → ℕ → ℕ → List (ℕ × ℕ)
  | [], _, _, _ => []
  | c :: rest, prevWord, skip, i =>
    match skip with
    | Nat.succ k => scanSpansAux m rest (isWordChar c) k (i + 1)
    | 0 =>
      match (if prevWord then none else m (c :: rest)) with
      | some after =>
        let len := (c :: rest).length - after.length
        (i, i + len) :: scanSpansAux m rest (isWordChar c) (len - 1) (i + 1)
      | none => scanSpansAux m rest (isWordChar c) 0 (i + 1)

def scanSpans (m : List Char → Option (List Char)) (cs : List Char) : List (ℕ × ℕ) :=
  scanSpansAux m cs false 0 0

end RCP

namespace RCP

/-! ### The five date-literal patterns of `context.py` (`_DATE_PATTERNS`) -/

/-- Exactly `k` digits (`\d{k}`). -/
def matchDigits (k : ℕ) (cs : List Char) : Option (List Char) :=
  if (cs.take k).length = k && (cs.take k).all Char.isDigit then some (cs.drop k) else none

/-- A literal character. -/
def matchLit (c : Char) (cs : List Char) : Option (List Char) :=
  match cs with
  | d :: rest => if d = c then some rest else none
  | [] => none

/-- Case-insensitive literal (pattern given lowercase). -/
def matchLitCI : List Char → List Char → Option (List Char)
  | [], rest => some rest
  | _ :: _, [] => none
  | p :: ps, c :: rest => if charLower c = p then matchLitCI ps rest else none

/-- `\s+` (greedy; the run is always maximal since what follows is never
whitespace in these patterns). -/
def spaces1 (cs : List Char) : Option (List Char) :=
  let sp := cs.takeWhile isSpaceC
  if sp.isEmpty then none else some (cs.drop sp.length)

/-- `\b\d{4}-\d{2}-\d{2}T\d{2}:\d{2}:\d{2}(?:\.\d+)?\b` at a position.
The optional fraction is tried greedily; if its trailing boundary fails the
regex backtracks to the fraction-less form, whose boundary (the dot) always
holds. -/
def dateIsoDateTimeAt (cs : List Char) : Option (List Char) := do
  let r ← matchDigits 4 cs
  let r ← matchLit '-' r
  let r ← matchDigits 2 r
  let r ← matchLit '-' r
  let r ← matchDigits 2 r
  let r ← matchLit 'T' r
  let r ← matchDigits 2 r
  let r ← matchLit ':' r
  let r ← matchDigits 2 r
  let r ← matchLit ':' r
  let r ← matchDigits 2 r
  match r with
  | '.' :: r2 =>
    let ds := r2.takeWhile Char.isDigit
    if !ds.isEmpty && boundaryAfterOk (r2.drop ds.length) then some (r2.drop ds.length)
    else some r
  | _ => if boundaryAfterOk r then some r else none

/-- `\b\d{4}-\d{2}-\d{2}\b` at a position. -/
def dateIsoAt (cs : List Char) : Option (List Char) := do
  let r ← matchDigits 4 cs
  let r ← matchLit '-' r
  let r ← matchDigits 2 r
  let r ← matchLit '-' r
  let r ← matchDigits 2 r
  if boundaryAfterOk r then some r else none

/-- `\b\d{1,2}[slash-](here [slash-] is the class of a slash or a dash)\d{1,2}[slash-]\d{2,4}\b` at a position.  A maximal digit run
longer than the counter admits can never match (shorter splits leave a digit
at a boundary), so runs are taken maximally and length-checked. -/
def dateSlashAt (cs : List Char) : Option (List Char) :=
  let ds1 := cs.takeWhile Char.isDigit
  if ds1.length = 0 ∨ 2 < ds1.length then none
  else
    match cs.drop ds1.length with
    | c1 :: r1 =>
      if c1 = '/' ∨ c1 = '-' then
        let ds2 := r1.takeWhile Char.isDigit
        if ds2.length = 0 ∨ 2 < ds2.length then none
        else
          match r1.drop ds2.length with
          | c2 :: r2 =>
            if c2 = '/' ∨ c2 = '-' then
              let ds3 := r2.takeWhile Char.isDigit
              if 2 ≤ ds3.length ∧ ds3.length ≤ 4 ∧ boundaryAfterOk (r2.drop ds3.length)
              then some (r2.drop ds3.length) else none
            else none
          | [] => none
      else none
    | [] => none

/-- The month alternation `(?:jan(?:uary)?|...|dec(?:ember)?)` as
(prefix, optional suffix) pairs; the three-letter prefixes are pairwise
distinct, so first-prefix-match equals the regex's alternation order. -/
def monthAlternatives : List (List Char × List Char) :=
  [("jan".data, "uary".data), ("feb".data, "ruary".data), ("mar".data, "ch".data),
   ("apr".data, "il".data), ("may".data, [] ), ("jun".data, "e".data),
   ("jul".data, "y".data), ("aug".data, "ust".data), ("sep".data, "tember".data),
   ("oct".data, "ober".data), ("nov".data, "ember".data), ("dec".data, "ember".data)]

/-- All ways the month alternation can match at `cs` (full name first, then
the bare prefix — regex greediness of the optional suffix). -/
def matchMonthAt (cs : List Char) : List (List Char) :=
  match monthAlternatives.findSome? (fun pq => (matchLitCI pq.1 cs).map (fun r => (r, pq.2))) with
  | none => []
  | some (r, suf) =>
    match matchLitCI suf r with
    | some r2 => [r2, r]
    | none => [r]

def ordSuffixAlts : List (List Char) := ["st".data, "nd".data, "rd".data, "th".data]

/-- `\b\d{1,2}(?:st|nd|rd|th)?\s+MONTH\s+\d{4}\b` at a position (IGNORECASE). -/
def dateDayMonthYearAt (cs : List Char) : Option (List Char) :=
  let ds := cs.takeWhile Char.isDigit
  if ds.length = 0 ∨ 2 < ds.length then none
  else
    let r1 := cs.drop ds.length
    let cont := fun (r : List Char) => do
      let r ← spaces1 r
      (matchMonthAt r).findSome? (fun rm => do
        let r3 ← spaces1 rm
        let r4 ← matchDigits 4 r3
        if boundaryAfterOk r4 then some r4 else none)
    (ordSuffixAlts.findSome? (fun sfx => (matchLitCI sfx r1).bind cont)) <|> cont r1

/-- `\bMONTH\s+\d{1,2}(?:st|nd|rd|th)?(?:,)?\s+\d{4}\b` at a position
(IGNORECASE). -/
def dateMonthDayYearAt (cs : List Char) : Option (List Char) :=
  (matchMonthAt cs).findSome? (fun r1 => do
    let r2 ← spaces1 r1
    let ds := r2.takeWhile Char.isDigit
    if ds.length = 0 ∨ 2 < ds.length then none
    else
      let r3 := r2.drop ds.length
      let fin := fun (r : List Char) => do
        let r ← spaces1 r
        let r ← matchDigits 4 r
        if boundaryAfterOk r then some r else none
      let afterComma := fun (r : List Char) =>
        match r with
        | ',' :: rr => (fin rr) <|> fin r
        | _ => fin r
      (ordSuffixAlts.findSome? (fun sfx => (matchLitCI sfx r3).bind afterComma)) <|>
        afterComma r3)

def datePatternList : List (List Char → Option (List Char)) :=
  [dateIsoDateTimeAt, dateIsoAt, dateSlashAt, dateDayMonthYearAt, dateMonthDayYearAt]

/-! ### Text signal extractors (`context.py`) -/

/-- `question_mentions_dates`: any of the five patterns matches. -/
def question_mentions_dates (question : String) : Bool :=
  datePatternList.any (fun m => scanHasMatch m question.data false)

/-- `question_mentions_session`: `re.search(r"\bsessions?[_\s]*\d+\b", q.lower())`. -/
def question_mentions_session (question : String) : Bool :=
  scanHasMatch matchSessionsGroupAt (lowerList question.data) false

/-- Python whitespace class used for `\s*` between a keyword and digits. -/
def matchKeyGroupAt (word : List Char) (cs : List Char) : Option (List Char × List Char) :=
  if word.isPrefixOf cs then matchSepDigitsGroup isSpaceC (cs.drop word.length)
  else none

/-- `question_mentions_game`: `re.search(r"\bgame\s*\d+\b", question, IGNORECASE)`. -/
def question_mentions_game (question : String) : Bool :=
  scanHasMatch (matchKeyGroupAt "game".data) (lowerList question.data) false

/-- Spans of all five date patterns over `q` (`_in_date_span` support). -/
def dateSpans (cs : List Char) : List (ℕ × ℕ) :=
  (datePatternList.map (fun m => scanSpans m cs)).flatten

def inAnySpan (spans : List (ℕ × ℕ)) (i : ℕ) : Bool :=
  spans.any (fun p => p.1 ≤ i && i < p.2)

/-- Candidate scan of `extract_patient_from_text`: `\b\d+\b` matches whose
start is outside every date span and whose digits are not already claimed by
a game or session number. -/
def scanNumCandidatesAux (spans : List (ℕ × ℕ)) (gameNums sessionNums : List (List Char)) :
    List Char → Bool → ℕ → ℕ → List (List Char)
  | [], _, _, _ => []
  | c :: rest, prevWord, skip, i =>
    match skip with
    | Nat.succ k => scanNumCandidatesAux spans gameNums sessionNums rest (isWordChar c) k (i + 1)
    | 0 =>
      if prevWord then scanNumCandidatesAux spans gameNums sessionNums rest (isWordChar c) 0 (i + 1)
      else
        let ds := (c :: rest).takeWhile Char.isDigit
        if ds.isEmpty then
          scanNumCandidatesAux spans gameNums sessionNums rest (isWordChar c) 0 (i + 1)
        else if boundaryAfterOk ((c :: rest).drop ds.length) then
          let keep := !(inAnySpan spans i) && !(gameNums.contains ds) && !(sessionNums.contains ds)
          (if keep then [ds] else []) ++
            scanNumCandidatesAux spans gameNums sessionNums rest (isWordChar c) (ds.length - 1) (i + 1)
        else
          scanNumCandidatesAux spans gameNums sessionNums rest (isWordChar c) 0 (i + 1)

/-- `extract_patient_from_text`. -/
def extract_patient_from_text (question : String) : Option String :=
  let q := lowerList (stripList question.data)
  match (scanFirstGroup (matchKeyGroupAt "patient".data) q false) <|>
        (scanFirstGroup (matchKeyGroupAt "pt".data) q false) with
  | some g => some ⟨g⟩
  | none =>
    let spans := dateSpans q
    let gameNums := scanGroups (matchKeyGroupAt "game".data) q
    let sessionNums := scanGroups matchSessionsGroupAt q
    let candidates := scanNumCandidatesAux spans gameNums sessionNums q false 0 0
    match candidates with
    | [g] => some ⟨g⟩
    | _ => none

def question_mentions_patient (question : String) : Bool :=
  (extract_patient_from_text question).isSome

end RCP

namespace RCP

/-! ### Configuration (`config.py`) -/

/-- `ALLOWED_METRICS` — the source applies `sorted([...])`; the resulting
ascending order is written out literally (it is the iteration order of the
metric-token loop in `extract_metric_from_text`). -/
def ALLOWED_METRICS : List String :=
  ["area", "average_sparc", "avg_actual_len", "avg_efficiency", "avg_excess_len",
   "avg_f_ee", "avg_ideal_len", "avg_max_dev", "avg_mean_dev", "avg_path_ratio",
   "diff_from_prev", "f_patient", "improvement"]

def FOLLOWUP_CUES : List String :=
  ["what about", "how about", "and", "also", "their", "that one", "same", "instead"]

/-! ### Metric aliases and extraction (`context.py`) -/

/-- `METRIC_ALIAS_MAP`: alias keys of `_RAW_METRIC_ALIAS_MAP` already
normalized by `_normalize_alias_text`, in dict insertion order. -/
def METRIC_ALIAS_MAP : List (String × String) :=
  [("sparc", "average_sparc"), ("smoothness", "average_sparc"),
   ("efficiency", "avg_efficiency"), ("efficient", "avg_efficiency"),
   ("force", "avg_f_patient"), ("strength", "avg_f_patient"),
   ("avg f patient", "avg_f_patient"),
   ("area", "area"), ("range of motion", "area"), ("rangeofmotion", "area"),
   ("rom", "area")]

def DURATION_CUES : List String :=
  ["how long", "duration", "session duration", "session length", "length of session"]

/-- `is_duration_question`. -/
def is_duration_question (question : String) : Bool :=
  let q := lowerList question.data
  isInfixL ("session".data) q && DURATION_CUES.any (fun cue => isInfixL cue.data q)

/-- `looks_like_followup`. -/
def looks_like_followup (question : String) : Bool :=
  let q := lowerList (stripList question.data)
  FOLLOWUP_CUES.any (fun cue => isInfixL cue.data q)

/-- `extract_metric_from_text`: duration special case, then exact allow-listed
tokens, then normalized alias phrases (substring test for multi-word phrases,
word-boundary regex otherwise). -/
def extract_metric_from_text (question : String) : Option String :=
  let q := lowerList question.data
  let qn := normalizeAliasList question.data
  if is_duration_question question then some "timestampms"
  else
    match ALLOWED_METRICS.findSome?
        (fun m => if findWordToken (lowerList m.data) q then some m else none) with
    | some m => some m
    | none =>
      METRIC_ALIAS_MAP.findSome? (fun pm =>
        if pm.1.data.contains ' ' then
          (if isInfixL pm.1.data qn then some pm.2 else none)
        else
          (if findWordToken pm.1.data qn then some pm.2 else none))

/-! ### Query descriptor (`schema.py` `QuerySpec`) -/

/-- The `date_start` / `date_end` fields are strings carrying either the
`"__MISSING__"` sentinel or a date literal; date ingestion/normalization is
out of scope (spec §1), so a parsed date is abstracted to its ordinal. -/
inductive DateVal
  | missing
  | iso (d : ℕ)
deriving DecidableEq, Repr

/-- `QuerySpec`.  The constant `action` and `return_columns` fields are never
read by the embedded operations and are omitted.  The patient field is named
`patient` in `context.py`/`chat_service.py` and `patient_id` in
`schema.py`/`query_engine.py` (two revisions of the same record); a single
field stands for both. -/
structure QuerySpec where
  patient : String
  metric : String
  date_start : DateVal
  date_end : DateVal
  game : Option String
  session : Option String
deriving DecidableEq, Repr

/-! ### Context merge engine (`apply_followup_context`) -/

/-- `apply_followup_context`: fill missing fields of `new_spec` from
`last_spec` per field, unless the question text explicitly mentions the
field.  The Python mutates `new_spec` field by field; no branch reads a field
already written, so the state-passing translation is direct. -/
def apply_followup_context (new_spec : QuerySpec) (question : String)
    (last_spec : Option QuerySpec) : QuerySpec :=
  match last_spec with
  | none => new_spec
  | some last =>
    let followup := looks_like_followup question
    let metricMerged :=
      match extract_metric_from_text question with
      | some explicitMetric => explicitMetric
      | none =>
        if followup ∨ new_spec.metric = "__MISSING__" then last.metric else new_spec.metric
    let patientMerged :=
      if (followup ∧ ¬question_mentions_patient question) ∨
         (new_spec.patient = "__MISSING__" ∧ ¬question_mentions_patient question) then
        last.patient
      else new_spec.patient
    let datesMerged :=
      if new_spec.date_start = DateVal.missing ∧ new_spec.date_end = DateVal.missing ∧
         ¬question_mentions_dates question then
        (last.date_start, last.date_end)
      else (new_spec.date_start, new_spec.date_end)
    let gameMerged :=
      if (followup ∧ ¬question_mentions_game question) ∨
         (new_spec.game = none ∧ ¬question_mentions_game question) then
        last.game
      else new_spec.game
    let sessionMerged :=
      if question_mentions_dates question ∧ ¬question_mentions_session question then
        none
      else if (followup ∧ ¬question_mentions_session question) ∨
              (new_spec.session = none ∧ ¬question_mentions_session question) then
        last.session
      else new_spec.session
    { patient := patientMerged, metric := metricMerged,
      date_start := datesMerged.1, date_end := datesMerged.2,
      game := gameMerged, session := sessionMerged }

end RCP

namespace RCP

/-! ### Dataset model (`query_engine.py`) -/

/-- A raw metric cell of the loaded CSV: enough structure to express
`_safe_metric_value` (`pd.isna`, `float(...)` failure, `math.isfinite`). -/
inductive RawVal
  | nanVal
  | infVal
  | nonNumeric
  | num (q : ℚ)
deriving DecidableEq, Repr

/-- `_safe_metric_value`. -/
def safe_metric_value (v : RawVal) : Option ℚ :=
  match v with
  | .nanVal => none
  | .infVal => none
  | .nonNumeric => none
  | .num q => some q

/-- One dataframe row: `date` is `none` for `NaT`, `cell` gives the raw value
of each metric column. -/
structure SrcRow where
  patient_id : String
  game : String
  session : String
  date : Option ℕ
  cell : String → RawVal

structure DataFrame where
  columns : List String
  rows : List SrcRow

/-- A fetched row as produced by `run_query` / `run_session_range`. -/
structure Row where
  date : Option ℕ
  patient_id : String
  metric_value : Option ℚ
  game : String
  session : String
deriving DecidableEq, Repr

/-! ### Stable sorting (pandas multi-column `sort_values` is a stable
lexsort; Python `sorted`/`list.sort` are stable) -/

def stableInsert {α : Type} (le : α → α → Bool) (x : α) : List α → List α
  | [] => [x]
  | y :: ys => if le x y then x :: y :: ys else y :: stableInsert le x ys

def stableSort {α : Type} (le : α → α → Bool) : List α → List α
  | [] => []
  | x :: xs => stableInsert le x (stableSort le xs)

/-- Lexicographic code-point comparison of character lists (Python string
order for ASCII). -/
def cmpListChar : List Char → List Char → Ordering
  | [], [] => .eq
  | [], _ :: _ => .lt
  | _ :: _, [] => .gt
  | a :: as, b :: bs =>
    match compare a.toNat b.toNat with
    | .eq => cmpListChar as bs
    | o => o

def cmpStr (a b : String) : Ordering := cmpListChar a.data b.data

def strLe (a b : String) : Bool :=
  match cmpStr a b with
  | .gt => false
  | _ => true

/-- Comparison of the `date` column: `NaT` sorts last (pandas default). -/
def cmpDateOpt (a b : Option ℕ) : Ordering :=
  match a, b with
  | none, none => .eq
  | none, some _ => .gt
  | some _, none => .lt
  | some x, some y => compare x y

/-- `sort_values(["date", "game", "session"])`. -/
def rowLeDateGameSession (a b : SrcRow) : Bool :=
  match cmpDateOpt a.date b.date with
  | .lt => true
  | .gt => false
  | .eq =>
    match cmpStr a.game b.game with
    | .lt => true
    | .gt => false
    | .eq => strLe a.session b.session

/-- `sort_values(["session", "date"])`. -/
def rowLeSessionDate (a b : SrcRow) : Bool :=
  match cmpStr a.session b.session with
  | .lt => true
  | .gt => false
  | .eq =>
    match cmpDateOpt a.date b.date with
    | .gt => false
    | _ => true

/-! ### `run_query` -/

/-- The `missing` list built by `run_query` (field names as in the error
message). -/
def missing_fields (spec : QuerySpec) : List String :=
  (if spec.patient = "__MISSING__" then ["patient_id"] else []) ++
  (if spec.metric = "__MISSING__" then ["metric"] else []) ++
  (if spec.session = none ∧ spec.date_start = DateVal.missing then ["date_start"] else [])

/-- The patient / optional game / optional session filters of `run_query`
(`.astype(str).str.strip()` on the column, compared to the spec value). -/
def filter_base (df : DataFrame) (spec : QuerySpec) : List SrcRow :=
  let out := df.rows.filter (fun r => pyStrip r.patient_id == spec.patient)
  let out :=
    match spec.game with
    | some g => out.filter (fun r => pyStrip r.game == g)
    | none => out
  match spec.session with
  | some s => out.filter (fun r => pyStrip r.session == s)
  | none => out

/-- The inclusive date-range filter of `run_query`: applied only when both
bounds are present; a `NaT` date satisfies neither comparison. -/
def filter_dates (spec : QuerySpec) (l : List SrcRow) : List SrcRow :=
  match spec.date_start, spec.date_end with
  | DateVal.iso s, DateVal.iso e =>
    l.filter (fun r =>
      match r.date with
      | some d => decide (s ≤ d) && decide (d ≤ e)
      | none => false)
  | _, _ => l

/-- Output-row construction of `run_query` / `run_session_range`. -/
def mk_row (spec : QuerySpec) (r : SrcRow) : Row :=
  { date := r.date, patient_id := r.patient_id,
    metric_value := safe_metric_value (r.cell spec.metric),
    game := r.game, session := r.session }

/-- `run_query`.  Python reports failures as a single-element list holding an
error dict; that shape is modelled by `Except.error`. -/
def run_query (df : DataFrame) (spec : QuerySpec) : Except String (List Row) :=
  if spec.session.isSome ∧ spec.game = none then
    .error "For session-based queries, please specify a game (e.g., \x27game0\x27) because the same session can exist in multiple games."
  else if spec.session = none ∧ spec.game = none then
    .error "Please specify a game (e.g., \x27game0\x27) for date-range queries to avoid mixing data across games."
  else if missing_fields spec ≠ [] then
    .error ("Missing required info: " ++ String.intercalate ", " (missing_fields spec))
  else if spec.metric ∉ df.columns then
    .error ("Metric column \x27" ++ spec.metric ++ "\x27 not found in CSV.")
  else
    let rows := (stableSort rowLeDateGameSession (filter_dates spec (filter_base df spec))).map
      (mk_row spec)
    if rows = [] then .error "No matching rows found in uploaded CSV for that query."
    else .ok rows

/-! ### `run_session_range` -/

/-- The patient/game/`in_range` filters of `run_session_range` (`in_range`
parses each trimmed session string and keeps `lo ≤ n ≤ hi`). -/
def session_range_rows (df : DataFrame) (spec : QuerySpec) (g : String) (lo hi : ℕ) :
    List SrcRow :=
  let out := df.rows.filter (fun r => pyStrip r.patient_id == spec.patient)
  let out := out.filter (fun r => pyStrip r.game == g)
  out.filter (fun r =>
    match session_number_str (pyStrip r.session) with
    | some n => decide (lo ≤ n) && decide (n ≤ hi)
    | none => false)

/-- The tail of `run_session_range` once validation and bound parsing have
succeeded: filter, sort by `(session, date)`, build rows, error when empty. -/
def run_session_range_fetch (df : DataFrame) (spec : QuerySpec) (g : String) (lo hi : ℕ) :
    Except String (List Row) :=
  let rows := (stableSort rowLeSessionDate (session_range_rows df spec g lo hi)).map (mk_row spec)
  if rows = [] then .error "No matching rows found in uploaded CSV for that query."
  else .ok rows

def run_session_range (df : DataFrame) (spec : QuerySpec)
    (session_start session_end : String) : Except String (List Row) :=
  if spec.patient = "__MISSING__" then .error "Missing required info: patient_id"
  else if spec.metric = "__MISSING__" then .error "Missing required info: metric"
  else
    match spec.game with
    | none => .error "Please specify a game (e.g., \x27game0\x27) for session-range queries."
    | some g =>
      match session_number (some session_start), session_number (some session_end) with
      | some startNum, some endNum =>
        let lohi := if startNum ≤ endNum then (startNum, endNum) else (endNum, startNum)
        run_session_range_fetch df spec g lohi.1 lohi.2
      | _, _ => .error "Could not parse session range. Use \x27session 1 to session 7\x27."

/-! ### Means, dates, session comparison -/

/-- `mean_metric_value`: mean over the valid numeric values (every stored
`ℚ` is finite, so the `isinstance`/`isfinite` guard is `Option` presence). -/
def mean_metric_value (rows : List Row) : Option ℚ :=
  let vals := rows.filterMap (fun r => r.metric_value)
  if vals = [] then none else some (vals.sum / vals.length)

/-- `_min_date` inside `compare_two_sessions`. -/
def min_date (rows : List Row) : Option ℕ :=
  match rows.filterMap (fun r => r.date) with
  | [] => none
  | d :: ds => some (ds.foldl Nat.min d)

structure CompareReport where
  patient_id : String
  game : Option String
  metric : String
  session_a : String
  session_b : String
  value_a : ℚ
  value_b : ℚ
  session_earlier : String
  session_later : String
  value_earlier : ℚ
  value_later : ℚ
  change_later_minus_earlier : ℚ
  diff_earlier_minus_later : ℚ
  relative_change_pct_vs_earlier : Option ℚ
  rows_a : List Row
  rows_b : List Row
  rows_earlier : List Row
  rows_later : List Row
deriving DecidableEq, Repr

/-- The swap decision of `compare_two_sessions`: order by session number when
both parse and differ, else by earliest date when both exist and differ, else
keep base-then-other. -/
def compare_swap (numA numB dateA dateB : Option ℕ) : Bool :=
  let dateSwap : Bool :=
    match dateA, dateB with
    | some u, some v => if u ≠ v then decide (v < u) else false
    | _, _ => false
  match numA, numB with
  | some x, some y => if x ≠ y then decide (y < x) else dateSwap
  | _, _ => dateSwap

/-- The report construction at the end of `compare_two_sessions` (swap by
session number, else by earliest date, else keep base-then-other; then the
deltas and the relative change). -/
def compare_build (base_spec : QuerySpec) (baseSession other_session : String)
    (rows_a rows_b : List Row) (mean_a mean_b : ℚ) : CompareReport :=
  let swap := compare_swap (session_number (some baseSession))
    (session_number (some other_session)) (min_date rows_a) (min_date rows_b)
  let ordered :=
    if swap then (other_session, baseSession, mean_b, mean_a, rows_b, rows_a)
    else (baseSession, other_session, mean_a, mean_b, rows_a, rows_b)
  let change := ordered.2.2.2.1 - ordered.2.2.1
  { patient_id := base_spec.patient,
    game := base_spec.game,
    metric := base_spec.metric,
    session_a := baseSession,
    session_b := other_session,
    value_a := mean_a,
    value_b := mean_b,
    session_earlier := ordered.1,
    session_later := ordered.2.1,
    value_earlier := ordered.2.2.1,
    value_later := ordered.2.2.2.1,
    change_later_minus_earlier := change,
    diff_earlier_minus_later := ordered.2.2.1 - ordered.2.2.2.1,
    relative_change_pct_vs_earlier :=
      if ordered.2.2.1 ≠ 0 then some (change / |ordered.2.2.1| * 100) else none,
    rows_a := rows_a,
    rows_b := rows_b,
    rows_earlier := ordered.2.2.2.2.1,
    rows_later := ordered.2.2.2.2.2 }

/-- `compare_two_sessions`. -/
def compare_two_sessions (df : DataFrame) (base_spec : QuerySpec)
    (other_session : String) : Except String CompareReport :=
  match base_spec.session with
  | none => .error "No base session in context to compare from."
  | some baseSession =>
    if base_spec.metric = "__MISSING__" then .error "No metric in context to compare."
    else if base_spec.patient = "__MISSING__" then .error "No patient in context to compare."
    else
      match run_query df { base_spec with
        date_start := DateVal.missing
        date_end := DateVal.missing
        session := some baseSession } with
      | .error e => .error ("Could not fetch " ++ baseSession ++ ": " ++ e)
      | .ok rows_a =>
        match run_query df { base_spec with
          date_start := DateVal.missing
          date_end := DateVal.missing
          session := some other_session } with
        | .error e => .error ("Could not fetch " ++ other_session ++ ": " ++ e)
        | .ok rows_b =>
          match mean_metric_value rows_a, mean_metric_value rows_b with
          | some mean_a, some mean_b =>
            .ok (compare_build base_spec baseSession other_session rows_a rows_b mean_a mean_b)
          | _, _ => .error "One of the sessions has no numeric metric values."

end RCP

namespace RCP

/-! ### Relative session resolver (`resolve_relative_session`) -/

/-- Rows of the dataframe matching the base patient and game (trimmed column
values against the spec values). -/
def pg_subset (df : DataFrame) (p g : String) : List SrcRow :=
  (df.rows.filter (fun r => pyStrip r.patient_id == p)).filter (fun r => pyStrip r.game == g)

/-- `sorted({s for s in subset["session"].astype(str).str.strip() if s})`:
distinct non-empty trimmed session strings, in ascending string order. -/
def pg_sessions (df : DataFrame) (p g : String) : List String :=
  stableSort strLe ((((pg_subset df p g).map (fun r => pyStrip r.session)).filter
    (fun s => s ≠ "")).dedup)

/-- `numbered`: the sessions whose embedded number parses, paired with it. -/
def pg_numbered (df : DataFrame) (p g : String) : List (ℕ × String) :=
  (pg_sessions df p g).filterMap (fun s => (session_number (some s)).map (fun n => (n, s)))

/-- `numbered.sort(key=lambda x: x[0])` (stable). -/
def pg_numbered_sorted (df : DataFrame) (p g : String) : List (ℕ × String) :=
  stableSort (fun a b => decide (a.1 ≤ b.1)) (pg_numbered df p g)

/-- `nums`. -/
def pg_nums (df : DataFrame) (p g : String) : List ℕ :=
  (pg_numbered_sorted df p g).map (fun a => a.1)

/-- `sessions_by_num[n]`: the dict built over the sorted pair list keeps, for
each key, the last pair — total whenever `n` occurs as a key, which holds at
every use site (Python would raise `KeyError` otherwise). -/
def sessions_by_num (l : List (ℕ × String)) (n : ℕ) : String :=
  match (l.filter (fun a => a.1 = n)).getLast? with
  | some a => a.2
  | none => ""

/-- `resolve_relative_session`: the Python returns `{"error": msg}` or
`{"session": sid}`, modelled as `Except`. -/
def resolve_relative_session (df : DataFrame) (base_spec : QuerySpec) (cue : String) :
    Except String String :=
  match base_spec.session with
  | none => .error "No base session in context to compare from."
  | some baseSession =>
    if base_spec.patient = "__MISSING__" then .error "No patient in context to compare."
    else
      match base_spec.game with
      | none => .error "No game in context to compare."
      | some g =>
        match session_number (some baseSession) with
        | none =>
          .error ("Could not parse session number from \x27" ++ baseSession ++ "\x27.")
        | some baseNum =>
          let numbered := pg_numbered df base_spec.patient g
          if numbered = [] then
            .error "No comparable sessions found for that patient/game."
          else
            let sortedPairs := pg_numbered_sorted df base_spec.patient g
            let nums := pg_nums df base_spec.patient g
            if cue = "first" then
              .ok (sessions_by_num sortedPairs (nums.headI))
            else if cue = "latest" then
              .ok (sessions_by_num sortedPairs (nums.getLastD 0))
            else if cue = "previous" then
              match (nums.filter (fun n => n < baseNum)).getLast? with
              | none => .error "No previous session found before the current session."
              | some n => .ok (sessions_by_num sortedPairs n)
            else if cue = "next" then
              match (nums.filter (fun n => baseNum < n)).head? with
              | none => .error "No next session found after the current session."
              | some n => .ok (sessions_by_num sortedPairs n)
            else .error "Unrecognized relative session cue."

/-! ### Trend classification (`summarizer.py`) -/

/-- One per-group summary row (`per_date_summary` / `per_session_summary`);
`classify_trend` reads only `mean_metric_value`. -/
structure GroupSummary where
  key : String
  n : ℕ
  mean_metric_value : ℚ
  min_metric_value : ℚ
  max_metric_value : ℚ
deriving DecidableEq, Repr

structure TrendResult where
  trend_label : Option String
  trend_reason : Option String
deriving DecidableEq, Repr

/-- `_metric_improvement_direction`: both branches return `+1`. -/
def metric_improvement_direction (metric_name : String) : ℤ :=
  if metric_name ∈ ["average_sparc", "avg_efficiency", "avg_f_patient", "area"] then 1 else 1

/-- `classify_trend`.  Float literals become exact rationals:
`1e-6 = 1/1000000`, `0.01·|b| = |b|/100`, `0.8 = 4/5`. -/
def classify_trend (per_date_summary : List GroupSummary) (metric_name : String) :
    TrendResult :=
  if per_date_summary.length < 2 then ⟨none, none⟩
  else
    let vals := per_date_summary.map (fun r => r.mean_metric_value)
    match vals with
    | [] => ⟨none, none⟩
    | baseline :: _ =>
      let epsilon : ℚ := max (1 / 1000000) (|baseline| / 100)
      let deltas := List.zipWith (fun a b => a - b) vals.tail vals
      let direction : ℚ := (metric_improvement_direction metric_name : ℚ)
      let improving := (deltas.filter (fun d => decide (d * direction > epsilon))).length
      let worsening := (deltas.filter (fun d => decide (d * direction < -epsilon))).length
      if improving + worsening = 0 then
        ⟨some "no clear trend", some "values stayed roughly stable between sessions"⟩
      else
        let improving_ratio : ℚ := (improving : ℚ) / ((improving : ℚ) + (worsening : ℚ))
        let worsening_ratio : ℚ := (worsening : ℚ) / ((improving : ℚ) + (worsening : ℚ))
        if improving_ratio ≥ 4 / 5 then
          ⟨some "improving", some "values generally improved from session to session"⟩
        else if worsening_ratio ≥ 4 / 5 then
          ⟨some "worsening", some "values generally worsened from session to session"⟩
        else if 0 < improving ∧ 0 < worsening then
          ⟨some "variable", some "values fluctuated with rises and drops between sessions"⟩
        else if 0 < improving then
          ⟨some "improving", some "values generally improved from session to session"⟩
        else
          ⟨some "worsening", some "values generally worsened from session to session"⟩

end RCP

namespace RCP

/-! ### Example inputs used by the per-claim witnesses and counterexamples -/

/-- The monotone mean sequence `[1.0, 1.2, 1.5, 2.0]` of the spec's
`classify_trend` scenario, as per-group summaries. -/
def example4_summary : List GroupSummary :=
  [⟨"g1", 1, 1, 1, 1⟩, ⟨"g2", 1, 12/10, 12/10, 12/10⟩,
   ⟨"g3", 1, 15/10, 15/10, 15/10⟩, ⟨"g4", 1, 2, 2, 2⟩]

/-- A dataframe cell function with a single populated `area` column. -/
def areaCell (v : RawVal) : String → RawVal :=
  fun m => if m = "area" then v else RawVal.nanVal

def stdColumns : List String := ["date", "patient_id", "game", "session", "area"]

/-- C2: an empty dataframe (the validation errors fire before any row is
read). -/
def c2df : DataFrame := ⟨stdColumns, []⟩

/-- C2 counterexample input: `patient` is `MISSING` *and* the QD is
session-scoped without a game. -/
def c2ceSpec : QuerySpec :=
  ⟨"__MISSING__", "area", DateVal.missing, DateVal.missing, none, some "session_4"⟩

/-- C2 witness input: session set, game absent, patient present. -/
def c2wSpecA : QuerySpec :=
  ⟨"46", "area", DateVal.missing, DateVal.missing, none, some "session_4"⟩

/-- C2 witness input: game present, patient missing. -/
def c2wSpecB : QuerySpec :=
  ⟨"__MISSING__", "area", DateVal.missing, DateVal.missing, some "game0", some "session_3"⟩

/-- C4 counterexample dataframe: patient `p1`, game `game0`, sessions 1 and 5
only. -/
def c4df : DataFrame :=
  ⟨stdColumns,
   [{ patient_id := "p1", game := "game0", session := "session_1", date := some 1,
      cell := areaCell (RawVal.num 1) },
    { patient_id := "p1", game := "game0", session := "session_5", date := some 2,
      cell := areaCell (RawVal.num 2) }]⟩

/-- C4 counterexample base QD: session 3 is *not* present in the data. -/
def c4ceBase : QuerySpec :=
  ⟨"p1", "area", DateVal.missing, DateVal.missing, some "game0", some "session_3"⟩

/-- C4 witness dataframe: sessions 1, 2 and 4. -/
def c4wdf : DataFrame :=
  ⟨stdColumns,
   [{ patient_id := "p1", game := "game0", session := "session_1", date := some 1,
      cell := areaCell (RawVal.num 1) },
    { patient_id := "p1", game := "game0", session := "session_2", date := some 2,
      cell := areaCell (RawVal.num 2) },
    { patient_id := "p1", game := "game0", session := "session_4", date := some 3,
      cell := areaCell (RawVal.num 3) }]⟩

/-- C4 witness base QD: session 2, present in the data. -/
def c4wBase : QuerySpec :=
  ⟨"p1", "area", DateVal.missing, DateVal.missing, some "game0", some "session_2"⟩

/-- C5 dataframe: session 4 (mean 5) and session 1 (mean 3/2) for
patient 46 / game0. -/
def c5df : DataFrame :=
  ⟨stdColumns,
   [{ patient_id := "46", game := "game0", session := "session_4", date := some 20,
      cell := areaCell (RawVal.num 5) },
    { patient_id := "46", game := "game0", session := "session_1", date := some 9,
      cell := areaCell (RawVal.num (3/2)) }]⟩

def c5spec : QuerySpec :=
  ⟨"46", "area", DateVal.missing, DateVal.missing, some "game0", some "session_4"⟩

def c5rowsA : List Row :=
  [{ date := some 20, patient_id := "46", metric_value := some 5, game := "game0",
     session := "session_4" }]

def c5rowsB : List Row :=
  [{ date := some 9, patient_id := "46", metric_value := some (3/2), game := "game0",
     session := "session_1" }]

/-- The report produced by `compare_two_sessions c5df c5spec "session_1"`. -/
def c5report : CompareReport :=
  { patient_id := "46", game := some "game0", metric := "area",
    session_a := "session_4", session_b := "session_1",
    value_a := 5, value_b := 3/2,
    session_earlier := "session_1", session_later := "session_4",
    value_earlier := 3/2, value_later := 5,
    change_later_minus_earlier := 7/2, diff_earlier_minus_later := -(7/2),
    relative_change_pct_vs_earlier := some (700/3),
    rows_a := c5rowsA, rows_b := c5rowsB,
    rows_earlier := c5rowsB, rows_later := c5rowsA }

/-- C6/C7 inputs: a fresh QD with every field unset. -/
def cUnsetSpec : QuerySpec :=
  ⟨"__MISSING__", "__MISSING__", DateVal.missing, DateVal.missing, none, none⟩

/-- C6/C7 prior-turn QD with every field populated. -/
def cPriorSpec : QuerySpec :=
  ⟨"46", "area", DateVal.iso 100, DateVal.iso 200, some "game0", some "session_3"⟩

/-- C8 dataframe: the four sanitization cases (valid, inf, non-numeric, NaN)
in one metric column, mirroring `tests/test_metric_sanitization.py`. -/
def c8df : DataFrame :=
  ⟨stdColumns,
   [{ patient_id := "P1", game := "game0", session := "session_1", date := some 1,
      cell := areaCell (RawVal.num 1) },
    { patient_id := "P1", game := "game0", session := "session_2", date := some 2,
      cell := areaCell RawVal.infVal },
    { patient_id := "P1", game := "game0", session := "session_3", date := some 3,
      cell := areaCell RawVal.nonNumeric },
    { patient_id := "P1", game := "game0", session := "session_4", date := some 4,
      cell := areaCell RawVal.nanVal }]⟩

def c8spec : QuerySpec :=
  ⟨"P1", "area", DateVal.iso 1, DateVal.iso 4, some "game0", none⟩

def c8rows : List Row :=
  [{ date := some 1, patient_id := "P1", metric_value := some 1, game := "game0",
     session := "session_1" },
   { date := some 2, patient_id := "P1", metric_value := none, game := "game0",
     session := "session_2" },
   { date := some 3, patient_id := "P1", metric_value := none, game := "game0",
     session := "session_3" },
   { date := some 4, patient_id := "P1", metric_value := none, game := "game0",
     session := "session_4" }]

/-- C9 dataframe: two dated rows for patient 46 / game0. -/
def c9df : DataFrame :=
  ⟨stdColumns,
   [{ patient_id := "46", game := "game0", session := "session_1", date := some 5,
      cell := areaCell (RawVal.num 1) },
    { patient_id := "46", game := "game0", session := "session_2", date := some 9,
      cell := areaCell (RawVal.num 2) }]⟩

/-- C9: `date_start` given, `date_end` left `MISSING`. -/
def c9specA : QuerySpec :=
  ⟨"46", "area", DateVal.iso 7, DateVal.missing, some "game0", none⟩

/-- C9 counterexample: only `date_end` given, session-less. -/
def c9specB : QuerySpec :=
  ⟨"46", "area", DateVal.missing, DateVal.iso 9, some "game0", none⟩

def c9rows : List Row :=
  [{ date := some 5, patient_id := "46", metric_value := some 1, game := "game0",
     session := "session_1" },
   { date := some 9, patient_id := "46", metric_value := some 2, game := "game0",
     session := "session_2" }]

end RCP

namespace RCP

/-! ### Generic list lemmas -/

theorem exists_getLast?_of_ne_nil {α : Type} (l : List α) (h : l ≠ []) :
    ∃ b, l.getLast? = some b := by
  induction l with
  | nil => exact absurd rfl h
  | cons a t ih =>
    cases t with
    | nil => exact ⟨a, rfl⟩
    | cons c t2 =>
      obtain ⟨b, hb⟩ := ih (by simp)
      exact ⟨b, by rw [List.getLast?_cons_cons]; exact hb⟩

theorem mem_of_getLast?_eq {α : Type} {l : List α} {b : α} (h : l.getLast? = some b) :
    b ∈ l := by
  induction l with
  | nil => simp at h
  | cons a t ih =>
    cases t with
    | nil => simp at h; simp [h]
    | cons c t2 =>
      rw [List.getLast?_cons_cons] at h
      exact List.mem_cons_of_mem _ (ih h)

theorem mem_of_head?_eq {α : Type} {l : List α} {b : α} (h : l.head? = some b) : b ∈ l := by
  cases l with
  | nil => simp at h
  | cons a t => simp at h; simp [h]

theorem sorted_le_getLast {l : List ℕ} (hp : l.Pairwise (· ≤ ·)) {b x : ℕ}
    (h : l.getLast? = some b) (hx : x ∈ l) : x ≤ b := by
  induction l with
  | nil => simp at hx
  | cons a t ih =>
    rcases List.pairwise_cons.mp hp with ⟨ha, ht⟩
    cases t with
    | nil =>
      simp at h hx
      omega
    | cons c t2 =>
      rw [List.getLast?_cons_cons] at h
      rcases List.mem_cons.mp hx with rfl | hx2
      · exact Nat.le_trans (ha b (mem_of_getLast?_eq h)) (Nat.le_refl b)
      · exact ih ht h hx2

theorem getLast?_eq_of_mem_of_max {l : List ℕ} (hp : l.Pairwise (· ≤ ·)) {b : ℕ}
    (hb : b ∈ l) (hmax : ∀ x ∈ l, x ≤ b) : l.getLast? = some b := by
  induction l with
  | nil => simp at hb
  | cons a t ih =>
    rcases List.pairwise_cons.mp hp with ⟨ha, ht⟩
    cases t with
    | nil =>
      simp at hb
      simp [hb]
    | cons c t2 =>
      rw [List.getLast?_cons_cons]
      have hbt : b ∈ c :: t2 := by
        rcases List.mem_cons.mp hb with rfl | hbt
        · have h1 : c ≤ b := hmax c (by simp)
          have h2 : b ≤ c := ha c (by simp)
          have : c = b := Nat.le_antisymm h1 h2
          simp [this]
        · exact hbt
      exact ih ht hbt (fun x hx => hmax x (List.mem_cons_of_mem _ hx))

theorem sorted_head_le {l : List ℕ} (hp : l.Pairwise (· ≤ ·)) {b x : ℕ}
    (h : l.head? = some b) (hx : x ∈ l) : b ≤ x := by
  cases l with
  | nil => simp at hx
  | cons a t =>
    simp at h
    subst h
    rcases List.pairwise_cons.mp hp with ⟨ha, _⟩
    rcases List.mem_cons.mp hx with rfl | hx2
    · exact Nat.le_refl x
    · exact ha x hx2

/-! ### Lemmas about the stable sort -/

theorem mem_stableInsert {α : Type} (le : α → α → Bool) (x a : α) (l : List α) :
    a ∈ stableInsert le x l ↔ a = x ∨ a ∈ l := by
  induction l with
  | nil => simp [stableInsert]
  | cons y ys ih =>
    simp only [stableInsert]
    split
    · simp [List.mem_cons]
    · simp only [List.mem_cons, ih]
      tauto

theorem mem_stableSort {α : Type} (le : α → α → Bool) (a : α) (l : List α) :
    a ∈ stableSort le l ↔ a ∈ l := by
  induction l with
  | nil => simp [stableSort]
  | cons y ys ih => simp [stableSort, mem_stableInsert, ih]

theorem stableInsert_ne_nil {α : Type} (le : α → α → Bool) (x : α) (l : List α) :
    stableInsert le x l ≠ [] := by
  cases l with
  | nil => simp [stableInsert]
  | cons y ys =>
    simp only [stableInsert]
    split <;> simp

theorem stableSort_eq_nil_iff {α : Type} (le : α → α → Bool) (l : List α) :
    stableSort le l = [] ↔ l = [] := by
  cases l with
  | nil => simp [stableSort]
  | cons y ys => simp [stableSort, stableInsert_ne_nil]

theorem pairwise_stableInsert {α : Type} {le : α → α → Bool}
    (htot : ∀ a b, le a b = true ∨ le b a = true)
    (htr : ∀ a b c, le a b = true → le b c = true → le a c = true)
    (x : α) (l : List α) (hl : l.Pairwise (fun a b => le a b = true)) :
    (stableInsert le x l).Pairwise (fun a b => le a b = true) := by
  induction l with
  | nil => simp [stableInsert]
  | cons y ys ih =>
    rcases List.pairwise_cons.mp hl with ⟨hy, hys⟩
    simp only [stableInsert]
    split
    · rename_i hxy
      refine List.pairwise_cons.mpr ⟨?_, hl⟩
      intro b hb
      rcases List.mem_cons.mp hb with rfl | hb2
      · exact hxy
      · exact htr x y b hxy (hy b hb2)
    · rename_i hxy
      have hyx : le y x = true := by
        rcases htot x y with h | h
        · exact absurd h hxy
        · exact h
      refine List.pairwise_cons.mpr ⟨?_, ih hys⟩
      intro b hb
      rcases (mem_stableInsert le x b ys).mp hb with rfl | hb2
      · exact hyx
      · exact hy b hb2

theorem pairwise_stableSort {α : Type} {le : α → α → Bool}
    (htot : ∀ a b, le a b = true ∨ le b a = true)
    (htr : ∀ a b c, le a b = true → le b c = true → le a c = true)
    (l : List α) : (stableSort le l).Pairwise (fun a b => le a b = true) := by
  induction l with
  | nil => simp [stableSort]
  | cons y ys ih => exact pairwise_stableInsert htot htr y (stableSort le ys) ih

end RCP

namespace RCP

/-! ### Lemmas about the resolver pipeline -/

theorem pg_nums_pairwise (df : DataFrame) (p g : String) :
    (pg_nums df p g).Pairwise (· ≤ ·) := by
  have htot : ∀ a b : ℕ × String, decide (a.1 ≤ b.1) = true ∨ decide (b.1 ≤ a.1) = true := by
    intro a b
    rcases Nat.le_total a.1 b.1 with h | h
    · exact Or.inl (decide_eq_true h)
    · exact Or.inr (decide_eq_true h)
  have htr : ∀ a b c : ℕ × String, decide (a.1 ≤ b.1) = true → decide (b.1 ≤ c.1) = true →
      decide (a.1 ≤ c.1) = true := by
    intro a b c h1 h2
    exact decide_eq_true (Nat.le_trans (of_decide_eq_true h1) (of_decide_eq_true h2))
  have hs := pairwise_stableSort htot htr (pg_numbered df p g)
  unfold pg_nums
  rw [List.pairwise_map]
  unfold pg_numbered_sorted
  refine hs.imp ?_
  intro a b h
  exact of_decide_eq_true h

theorem mem_pg_numbered_sorted_iff (df : DataFrame) (p g : String) (x : ℕ × String) :
    x ∈ pg_numbered_sorted df p g ↔ x ∈ pg_numbered df p g := by
  unfold pg_numbered_sorted
  exact mem_stableSort _ x _

theorem pg_numbered_parse {df : DataFrame} {p g : String} {n : ℕ} {s : String}
    (h : (n, s) ∈ pg_numbered df p g) : session_number_str s = some n := by
  unfold pg_numbered at h
  rcases List.mem_filterMap.mp h with ⟨a, _, ha2⟩
  have ha3 : Option.map (fun n => (n, a)) (session_number_str a) = some (n, s) := by
    simpa [session_number] using ha2
  cases hsn : session_number_str a with
  | none => rw [hsn] at ha3; simp at ha3
  | some m =>
    rw [hsn] at ha3
    simp only [Option.map_some', Option.some.injEq, Prod.mk.injEq] at ha3
    rcases ha3 with ⟨rfl, rfl⟩
    exact hsn

theorem mem_pg_nums_iff (df : DataFrame) (p g : String) (n : ℕ) :
    n ∈ pg_nums df p g ↔ ∃ s, (n, s) ∈ pg_numbered_sorted df p g := by
  unfold pg_nums
  constructor
  · intro h
    rcases List.mem_map.mp h with ⟨x, hx1, hx2⟩
    exact ⟨x.2, by rwa [show (n, x.2) = x from Prod.ext hx2.symm rfl]⟩
  · rintro ⟨s, hs⟩
    exact List.mem_map.mpr ⟨(n, s), hs, rfl⟩

theorem sessions_by_num_spec {l : List (ℕ × String)} {n : ℕ}
    (h : ∃ x ∈ l, x.1 = n) : (n, sessions_by_num l n) ∈ l := by
  obtain ⟨x, hx, hx1⟩ := h
  have hne : l.filter (fun a => a.1 = n) ≠ [] := by
    intro hnil
    have : x ∈ l.filter (fun a => a.1 = n) := List.mem_filter.mpr ⟨hx, by simp [hx1]⟩
    rw [hnil] at this
    simp at this
  obtain ⟨pr, hpr⟩ := exists_getLast?_of_ne_nil _ hne
  have hprmem := mem_of_getLast?_eq hpr
  rcases List.mem_filter.mp hprmem with ⟨hpl, hpn⟩
  have hp1 : pr.1 = n := by simpa using hpn
  unfold sessions_by_num
  rw [hpr]
  rwa [show (n, pr.2) = pr from Prod.ext hp1.symm rfl]

/-- `pg_numbered` is nonempty whenever some number occurs in `pg_nums`. -/
theorem pg_numbered_ne_nil_of_mem {df : DataFrame} {p g : String} {n : ℕ}
    (h : n ∈ pg_nums df p g) : pg_numbered df p g ≠ [] := by
  rcases (mem_pg_nums_iff df p g n).mp h with ⟨s, hs⟩
  have := (mem_pg_numbered_sorted_iff df p g (n, s)).mp hs
  intro hnil
  rw [hnil] at this
  simp at this

/-! ### Lemmas about the fetch filters -/

theorem filter_base_subset {df : DataFrame} {spec : QuerySpec} {r : SrcRow}
    (h : r ∈ filter_base df spec) : r ∈ df.rows := by
  unfold filter_base at h
  have h1 : r ∈ (df.rows.filter (fun r => pyStrip r.patient_id == spec.patient)) := by
    rcases hg : spec.game with _ | g <;> rw [hg] at h
    · rcases hs : spec.session with _ | s <;> rw [hs] at h
      · exact h
      · exact (List.mem_filter.mp h).1
    · rcases hs : spec.session with _ | s <;> rw [hs] at h
      · exact (List.mem_filter.mp h).1
      · exact (List.mem_filter.mp (List.mem_filter.mp h).1).1
  exact (List.mem_filter.mp h1).1

theorem filter_dates_subset {spec : QuerySpec} {l : List SrcRow} {r : SrcRow}
    (h : r ∈ filter_dates spec l) : r ∈ l := by
  unfold filter_dates at h
  rcases h1 : spec.date_start with _ | s <;> rw [h1] at h
  · exact h
  · rcases h2 : spec.date_end with _ | e <;> rw [h2] at h
    · exact h
    · exact (List.mem_filter.mp h).1

theorem filter_dates_of_missing {spec : QuerySpec} (l : List SrcRow)
    (h : spec.date_start = DateVal.missing ∨ spec.date_end = DateVal.missing) :
    filter_dates spec l = l := by
  unfold filter_dates
  rcases h1 : spec.date_start with _ | s
  · rfl
  · rcases h2 : spec.date_end with _ | e
    · rfl
    · rcases h with h | h
      · rw [h1] at h; cases h
      · rw [h2] at h; cases h

end RCP

namespace RCP

/-! ### Claim theorems -/

/-- C3: the claim states every non-`none` result of
`extract_metric_from_text` lies in `ALLOWED_METRICS`; the function's own
docstring says the same ("we only return values from ALLOWED_METRICS").  The
code violates this: the alias "strength" maps to `"avg_f_patient"` and the
duration special case returns `"timestampms"`, and neither name is in the
allow-list (which holds `"f_patient"` but not `"avg_f_patient"`). -/
theorem extract_metric_allowlist_violation :
    extract_metric_from_text "strength" = some "avg_f_patient" ∧
    "avg_f_patient" ∉ ALLOWED_METRICS ∧
    extract_metric_from_text "how long was session 3" = some "timestampms" ∧
    "timestampms" ∉ ALLOWED_METRICS := by
  refine ⟨by decide, by decide, by decide, by decide⟩

/-- C7: in `apply_followup_context` with a prior QD, a question that mentions
dates but no session never inherits a session — the merged `session` field is
forced to `None`, whatever `new_spec.session` and the prior session were. -/
theorem merge_dates_clear_session :
    ∀ (ns : QuerySpec) (q : String) (ls : QuerySpec),
      question_mentions_dates q = true → question_mentions_session q = false →
      (apply_followup_context ns q (some ls)).session = none := by
  intro ns q ls hd hs
  simp only [apply_followup_context]
  simp [hd, hs]

/-- C7 witness: the date-scoped question "area on 2024-01-05" clears the
prior session `session_3` even though the fresh QD leaves `session` unset. -/
theorem merge_dates_clear_session_witness :
    question_mentions_dates "area on 2024-01-05" = true ∧
    question_mentions_session "area on 2024-01-05" = false ∧
    cPriorSpec.session = some "session_3" ∧
    (apply_followup_context cUnsetSpec "area on 2024-01-05" (some cPriorSpec)).session = none :=
  ⟨by decide, by decide, by decide,
   merge_dates_clear_session cUnsetSpec "area on 2024-01-05" cPriorSpec (by decide) (by decide)⟩

/-- C10: `run_session_range` is symmetric in its two session bounds — the
parsed bound numbers are normalized to `(min, max)` before filtering, and the
rest of the computation does not depend on the argument order. -/
theorem run_session_range_symm :
    ∀ (df : DataFrame) (spec : QuerySpec) (a b : String),
      run_session_range df spec a b = run_session_range df spec b a := by
  intro df spec a b
  unfold run_session_range
  rcases hA : session_number (some a) with _ | x <;>
    rcases hB : session_number (some b) with _ | y <;> simp
  have hkey : (if x ≤ y then (x, y) else (y, x)) = (if y ≤ x then (y, x) else (x, y)) := by
    rcases Nat.lt_trichotomy x y with h | h | h
    · rw [if_pos (Nat.le_of_lt h), if_neg (by omega)]
    · simp [h]
    · rw [if_neg (by omega), if_pos (Nat.le_of_lt h)]
  rw [hkey]

end RCP

namespace RCP

/-- C6 (amended): per-field behaviour of `apply_followup_context`.  With no
prior QD the new QD is returned untouched.  With a prior QD, an unset field
with no textual mention inherits the prior value — for every field except
`session` in the presence of a date mention, where the session is cleared
instead (see `merge_dates_clear_session`).  When the text does mention a
field, the prior value is never inherited: the merged field is the new QD's
value (the extracted metric, for the metric field), independent of the
prior. -/
theorem apply_followup_context_spec :
    (∀ (ns : QuerySpec) (q : String), apply_followup_context ns q none = ns) ∧
    (∀ (ns : QuerySpec) (q : String) (ls : QuerySpec),
       ns.patient = "__MISSING__" → question_mentions_patient q = false →
       (apply_followup_context ns q (some ls)).patient = ls.patient) ∧
    (∀ (ns : QuerySpec) (q : String) (ls : QuerySpec),
       ns.metric = "__MISSING__" → extract_metric_from_text q = none →
       (apply_followup_context ns q (some ls)).metric = ls.metric) ∧
    (∀ (ns : QuerySpec) (q : String) (ls : QuerySpec),
       ns.date_start = DateVal.missing → ns.date_end = DateVal.missing →
       question_mentions_dates q = false →
       (apply_followup_context ns q (some ls)).date_start = ls.date_start ∧
       (apply_followup_context ns q (some ls)).date_end = ls.date_end) ∧
    (∀ (ns : QuerySpec) (q : String) (ls : QuerySpec),
       ns.game = none → question_mentions_game q = false →
       (apply_followup_context ns q (some ls)).game = ls.game) ∧
    (∀ (ns : QuerySpec) (q : String) (ls : QuerySpec),
       ns.session = none → question_mentions_session q = false →
       question_mentions_dates q = false →
       (apply_followup_context ns q (some ls)).session = ls.session) ∧
    (∀ (ns : QuerySpec) (q : String) (ls : QuerySpec),
       question_mentions_patient q = true →
       (apply_followup_context ns q (some ls)).patient = ns.patient) ∧
    (∀ (ns : QuerySpec) (q : String) (ls : QuerySpec) (m : String),
       extract_metric_from_text q = some m →
       (apply_followup_context ns q (some ls)).metric = m) ∧
    (∀ (ns : QuerySpec) (q : String) (ls : QuerySpec),
       question_mentions_dates q = true →
       (apply_followup_context ns q (some ls)).date_start = ns.date_start ∧
       (apply_followup_context ns q (some ls)).date_end = ns.date_end) ∧
    (∀ (ns : QuerySpec) (q : String) (ls : QuerySpec),
       question_mentions_game q = true →
       (apply_followup_context ns q (some ls)).game = ns.game) ∧
    (∀ (ns : QuerySpec) (q : String) (ls : QuerySpec),
       question_mentions_session q = true →
       (apply_followup_context ns q (some ls)).session = ns.session) := by
  refine ⟨fun ns q => rfl, ?_, ?_, ?_, ?_, ?_, ?_, ?_, ?_, ?_, ?_⟩
  · intro ns q ls h1 h2
    simp only [apply_followup_context]
    simp [h1, h2]
  · intro ns q ls h1 h2
    simp only [apply_followup_context]
    simp [h1, h2]
  · intro ns q ls h1 h2 h3
    simp only [apply_followup_context]
    simp [h1, h2, h3]
  · intro ns q ls h1 h2
    simp only [apply_followup_context]
    simp [h1, h2]
  · intro ns q ls h1 h2 h3
    simp only [apply_followup_context]
    simp [h1, h2, h3]
  · intro ns q ls h1
    simp only [apply_followup_context]
    simp [h1]
  · intro ns q ls m h1
    simp only [apply_followup_context]
    simp [h1]
  · intro ns q ls h1
    simp only [apply_followup_context]
    simp [h1]
  · intro ns q ls h1
    simp only [apply_followup_context]
    simp [h1]
  · intro ns q ls h1
    simp only [apply_followup_context]
    simp [h1]

/-- C6 witness: the question "show it" mentions nothing, so every unset field
of a fresh QD inherits the prior value; and for "what about patient 47" the
patient field is taken from the text side, not inherited. -/
theorem apply_followup_context_spec_witness :
    (apply_followup_context cUnsetSpec "show it" (some cPriorSpec)).patient = cPriorSpec.patient ∧
    (apply_followup_context cUnsetSpec "show it" (some cPriorSpec)).metric = cPriorSpec.metric ∧
    (apply_followup_context cUnsetSpec "show it" (some cPriorSpec)).date_start = cPriorSpec.date_start ∧
    (apply_followup_context cUnsetSpec "show it" (some cPriorSpec)).game = cPriorSpec.game ∧
    (apply_followup_context cUnsetSpec "show it" (some cPriorSpec)).session = cPriorSpec.session ∧
    (apply_followup_context cUnsetSpec "what about patient 47" (some cPriorSpec)).patient =
      cUnsetSpec.patient :=
  ⟨apply_followup_context_spec.2.1 cUnsetSpec "show it" cPriorSpec rfl (by decide),
   apply_followup_context_spec.2.2.1 cUnsetSpec "show it" cPriorSpec rfl (by decide),
   (apply_followup_context_spec.2.2.2.1 cUnsetSpec "show it" cPriorSpec rfl rfl (by decide)).1,
   apply_followup_context_spec.2.2.2.2.1 cUnsetSpec "show it" cPriorSpec rfl (by decide),
   apply_followup_context_spec.2.2.2.2.2.1 cUnsetSpec "show it" cPriorSpec rfl (by decide)
     (by decide),
   apply_followup_context_spec.2.2.2.2.2.2.1 cUnsetSpec "what about patient 47" cPriorSpec
     (by decide)⟩

/-- C6 counterexample: the claim's generic rule fails for the session field.
In "on 2024-01-05" no session is mentioned and the fresh QD's session is
unset, yet the merged QD does *not* carry the prior session `session_3` — it
is cleared to `none` because the text mentions a date. -/
theorem merge_session_inherit_counterexample :
    cUnsetSpec.session = none ∧
    question_mentions_session "on 2024-01-05" = false ∧
    cPriorSpec.session = some "session_3" ∧
    (apply_followup_context cUnsetSpec "on 2024-01-05" (some cPriorSpec)).session = none := by
  refine ⟨rfl, by decide, rfl, by decide⟩

end RCP

namespace RCP

/-- C2 (amended): `run_query` runs the game-requirement checks *before* the
missing-info check.  (1) A QD with a session set and no game always yields
the single "please specify a game" error — for every dataset, regardless of
missing patient/metric, so in particular it never yields a row list.  (2)
Only when a game is present does a QD with `MISSING` patient or metric yield
the "Missing required info" error naming the missing fields. -/
theorem run_query_validation_order :
    (∀ (df : DataFrame) (spec : QuerySpec) (s : String),
       spec.session = some s → spec.game = none →
       run_query df spec = .error "For session-based queries, please specify a game (e.g., \x27game0\x27) because the same session can exist in multiple games.") ∧
    (∀ (df : DataFrame) (spec : QuerySpec),
       spec.game ≠ none →
       (spec.patient = "__MISSING__" ∨ spec.metric = "__MISSING__") →
       run_query df spec =
         .error ("Missing required info: " ++ String.intercalate ", " (missing_fields spec))) := by
  constructor
  · intro df spec s h1 h2
    unfold run_query
    rw [if_pos ⟨by simp [h1], h2⟩]
  · intro df spec h1 h2
    unfold run_query
    rw [if_neg (by intro hc; exact h1 hc.2), if_neg (by intro hc; exact h1 hc.2),
      if_pos]
    unfold missing_fields
    rcases h2 with h2 | h2 <;> simp [h2]

/-- C2 witness: concrete session-without-game and missing-patient queries. -/
theorem run_query_validation_order_witness :
    run_query c2df c2wSpecA = .error "For session-based queries, please specify a game (e.g., \x27game0\x27) because the same session can exist in multiple games." ∧
    run_query c2df c2wSpecB = .error "Missing required info: patient_id" :=
  ⟨run_query_validation_order.1 c2df c2wSpecA "session_4" rfl rfl,
   (run_query_validation_order.2 c2df c2wSpecB (by decide) (Or.inl rfl)).trans
     (congrArg Except.error (by decide))⟩

/-- C2 counterexample: on a QD whose patient is `MISSING` *and* whose session
is set without a game, the claim's validation order says the "Missing
required info" error comes first; `run_query` instead reports the game
error. -/
theorem run_query_order_counterexample :
    run_query c2df c2ceSpec = .error "For session-based queries, please specify a game (e.g., \x27game0\x27) because the same session can exist in multiple games." ∧
    c2ceSpec.patient = "__MISSING__" ∧
    run_query c2df c2ceSpec ≠ .error "Missing required info: patient_id" := by
  refine ⟨by with_unfolding_all rfl, rfl, ?_⟩
  intro h
  rw [show run_query c2df c2ceSpec = .error "For session-based queries, please specify a game (e.g., \x27game0\x27) because the same session can exist in multiple games." from by with_unfolding_all rfl] at h
  simp only [Except.error.injEq] at h
  exact absurd h (by decide)

/-- C9 (amended): the inclusive date filter of `run_query` applies only when
both `date_start` and `date_end` are non-`MISSING`.  (1) Whenever at least
one bound is `MISSING` and the query succeeds, the returned rows are exactly
the patient/game/session-filtered rows with no date filtering.  (2) However,
a session-less QD with `date_start` `MISSING` (for example when only
`date_end` is set) does not return rows at all: it fails earlier with the
"Missing required info: date_start" error. -/
theorem date_filter_spec :
    (∀ (df : DataFrame) (spec : QuerySpec) (rows : List Row),
       (spec.date_start = DateVal.missing ∨ spec.date_end = DateVal.missing) →
       run_query df spec = .ok rows →
       rows = (stableSort rowLeDateGameSession (filter_base df spec)).map (mk_row spec)) ∧
    (∀ (df : DataFrame) (spec : QuerySpec),
       spec.session = none → spec.game ≠ none → spec.patient ≠ "__MISSING__" →
       spec.metric ≠ "__MISSING__" → spec.date_start = DateVal.missing →
       run_query df spec = .error "Missing required info: date_start") := by
  constructor
  · intro df spec rows hmiss h
    unfold run_query at h
    split at h
    · cases h
    · split at h
      · cases h
      · split at h
        · cases h
        · split at h
          · cases h
          · rw [filter_dates_of_missing _ hmiss] at h
            have h2 :
                (if (stableSort rowLeDateGameSession (filter_base df spec)).map (mk_row spec) = []
                 then (Except.error "No matching rows found in uploaded CSV for that query." :
                    Except String (List Row))
                 else Except.ok ((stableSort rowLeDateGameSession (filter_base df spec)).map
                   (mk_row spec))) = Except.ok rows := h
            split at h2
            · cases h2
            · exact (Except.ok.inj h2).symm
  · intro df spec h1 h2 h3 h4 h5
    unfold run_query
    rw [if_neg (by intro hc; rw [h1] at hc; simp at hc),
      if_neg (by intro hc; exact h2 hc.2), if_pos]
    · have hm : missing_fields spec = ["date_start"] := by
        unfold missing_fields
        simp [h3, h4, h1, h5]
      rw [hm]
      rfl
    · unfold missing_fields
      simp [h3, h4, h1, h5]

/-- C9 witness: with `date_start` set and `date_end` `MISSING`, the fetched
rows are the unfiltered (by date) matching rows — including a row dated
before `date_start`; and the end-only query fails with the missing-info
error. -/
theorem date_filter_spec_witness :
    c9rows = (stableSort rowLeDateGameSession (filter_base c9df c9specA)).map (mk_row c9specA) ∧
    run_query c9df c9specB = .error "Missing required info: date_start" :=
  ⟨date_filter_spec.1 c9df c9specA c9rows (Or.inr rfl) (by with_unfolding_all rfl),
   date_filter_spec.2 c9df c9specB rfl (by decide) (by decide) (by decide) rfl⟩

/-- C9 counterexample: for the end-only QD `c9specB` there are matching rows
on every date, but `run_query` returns the missing-info error rather than
those rows — refuting the claim that "no date filtering occurs at all and
rows from every date ... are returned" whenever exactly one bound is set. -/
theorem date_filter_counterexample :
    run_query c9df c9specB = .error "Missing required info: date_start" ∧
    (stableSort rowLeDateGameSession (filter_base c9df c9specB)).map (mk_row c9specB) ≠ [] := by
  refine ⟨by with_unfolding_all rfl, by with_unfolding_all decide⟩

end RCP

namespace RCP

theorem session_range_rows_subset {df : DataFrame} {spec : QuerySpec} {g : String}
    {lo hi : ℕ} {r : SrcRow} (h : r ∈ session_range_rows df spec g lo hi) : r ∈ df.rows := by
  unfold session_range_rows at h
  exact (List.mem_filter.mp (List.mem_filter.mp (List.mem_filter.mp h).1).1).1

theorem run_session_range_fetch_ok {df : DataFrame} {spec : QuerySpec} {g : String}
    {lo hi : ℕ} {rows : List Row}
    (h : run_session_range_fetch df spec g lo hi = .ok rows) :
    ∀ row ∈ rows, ∃ src ∈ df.rows,
      row.metric_value = safe_metric_value (src.cell spec.metric) := by
  intro row hrow
  unfold run_session_range_fetch at h
  have h2 :
      (if (stableSort rowLeSessionDate (session_range_rows df spec g lo hi)).map
          (mk_row spec) = []
       then (Except.error "No matching rows found in uploaded CSV for that query." :
          Except String (List Row))
       else Except.ok ((stableSort rowLeSessionDate (session_range_rows df spec g lo hi)).map
         (mk_row spec))) = Except.ok rows := h
  split at h2
  · cases h2
  · have hrows := (Except.ok.inj h2).symm
    subst hrows
    rcases List.mem_map.mp hrow with ⟨src, hsrc, hmk⟩
    refine ⟨src, ?_, ?_⟩
    · exact session_range_rows_subset ((mem_stableSort _ _ _).mp hsrc)
    · rw [← hmk]
      rfl

/-- C8: the sanitizer maps every non-numeric source value (NaN, infinite,
or unparseable) to `none` and keeps exactly the finite numbers, and every row
of a non-error `run_query` / `run_session_range` result carries
`safe_metric_value` of some source cell — so a fetched `metric_value` is
either a finite number or null, never a propagated NaN/Infinity. -/
theorem metric_value_sanitized :
    (∀ v : RawVal, (safe_metric_value v).isSome ↔ ∃ q : ℚ, v = RawVal.num q) ∧
    (∀ q : ℚ, safe_metric_value (RawVal.num q) = some q) ∧
    (∀ (df : DataFrame) (spec : QuerySpec) (rows : List Row),
       run_query df spec = .ok rows →
       ∀ row ∈ rows, ∃ src ∈ df.rows,
         row.metric_value = safe_metric_value (src.cell spec.metric)) ∧
    (∀ (df : DataFrame) (spec : QuerySpec) (a b : String) (rows : List Row),
       run_session_range df spec a b = .ok rows →
       ∀ row ∈ rows, ∃ src ∈ df.rows,
         row.metric_value = safe_metric_value (src.cell spec.metric)) := by
  refine ⟨?_, fun q => rfl, ?_, ?_⟩
  · intro v
    cases v <;> simp [safe_metric_value]
  · intro df spec rows h row hrow
    unfold run_query at h
    split at h
    · cases h
    · split at h
      · cases h
      · split at h
        · cases h
        · split at h
          · cases h
          · have h2 :
                (if (stableSort rowLeDateGameSession
                      (filter_dates spec (filter_base df spec))).map (mk_row spec) = []
                 then (Except.error "No matching rows found in uploaded CSV for that query." :
                    Except String (List Row))
                 else Except.ok ((stableSort rowLeDateGameSession
                   (filter_dates spec (filter_base df spec))).map (mk_row spec))) =
                  Except.ok rows := h
            split at h2
            · cases h2
            · have hrows := (Except.ok.inj h2).symm
              subst hrows
              rcases List.mem_map.mp hrow with ⟨src, hsrc, hmk⟩
              refine ⟨src, ?_, ?_⟩
              · exact filter_base_subset
                  (filter_dates_subset ((mem_stableSort _ _ _).mp hsrc))
              · rw [← hmk]
                rfl
  · intro df spec a b rows h row hrow
    unfold run_session_range at h
    split at h
    · cases h
    · split at h
      · cases h
      · cases hg : spec.game with
        | none => rw [hg] at h; cases h
        | some g =>
          rw [hg] at h
          cases hA : session_number (some a) with
          | none =>
            rw [hA] at h
            cases hB : session_number (some b) <;> rw [hB] at h <;> cases h
          | some startNum =>
            rw [hA] at h
            cases hB : session_number (some b) with
            | none => rw [hB] at h; cases h
            | some endNum =>
              rw [hB] at h
              have h3 : run_session_range_fetch df spec g
                  (if startNum ≤ endNum then (startNum, endNum) else (endNum, startNum)).1
                  (if startNum ≤ endNum then (startNum, endNum) else (endNum, startNum)).2 =
                    .ok rows := h
              exact run_session_range_fetch_ok h3 row hrow

/-- C8 witness: on a dataset holding a valid value, an infinity, a
non-numeric string and a NaN, the fetched rows carry `1, null, null, null`. -/
theorem metric_value_sanitized_witness :
    run_query c8df c8spec = .ok c8rows ∧
    (∃ src ∈ c8df.rows,
      ({ date := some 2, patient_id := "P1", metric_value := none, game := "game0",
         session := "session_2" } : Row).metric_value =
        safe_metric_value (src.cell c8spec.metric)) :=
  ⟨by with_unfolding_all rfl,
   metric_value_sanitized.2.2.1 c8df c8spec c8rows (by with_unfolding_all rfl)
     { date := some 2, patient_id := "P1", metric_value := none, game := "game0",
       session := "session_2" }
     (by with_unfolding_all decide)⟩

end RCP

namespace RCP

/-- Reduction of `resolve_relative_session` at cue "previous" once the base
QD is well-formed and the numbered session list is nonempty. -/
theorem resolve_unfold_prev {df : DataFrame} {base : QuerySpec} {sb g : String} {bnum : ℕ}
    (hs : base.session = some sb) (hp : base.patient ≠ "__MISSING__")
    (hg : base.game = some g) (hn : session_number_str sb = some bnum)
    (hne : pg_numbered df base.patient g ≠ []) :
    resolve_relative_session df base "previous" =
      match ((pg_nums df base.patient g).filter (fun n => n < bnum)).getLast? with
      | none => .error "No previous session found before the current session."
      | some n => .ok (sessions_by_num (pg_numbered_sorted df base.patient g) n) := by
  unfold resolve_relative_session
  rw [hs, hg]
  simp only [session_number]
  rw [if_neg hp, hn]
  dsimp only
  rw [if_neg hne]
  simp

/-- Reduction of `resolve_relative_session` at cue "next". -/
theorem resolve_unfold_next {df : DataFrame} {base : QuerySpec} {sb g : String} {bnum : ℕ}
    (hs : base.session = some sb) (hp : base.patient ≠ "__MISSING__")
    (hg : base.game = some g) (hn : session_number_str sb = some bnum)
    (hne : pg_numbered df base.patient g ≠ []) :
    resolve_relative_session df base "next" =
      match ((pg_nums df base.patient g).filter (fun n => bnum < n)).head? with
      | none => .error "No next session found after the current session."
      | some n => .ok (sessions_by_num (pg_numbered_sorted df base.patient g) n) := by
  unfold resolve_relative_session
  rw [hs, hg]
  simp only [session_number]
  rw [if_neg hp, hn]
  dsimp only
  rw [if_neg hne]
  simp

end RCP

namespace RCP

theorem resolve_unfold_empty {df : DataFrame} {base : QuerySpec} {sb g : String} {bnum : ℕ}
    (hs : base.session = some sb) (hp : base.patient ≠ "__MISSING__")
    (hg : base.game = some g) (hn : session_number_str sb = some bnum)
    (hemp : pg_numbered df base.patient g = []) (cue : String) :
    resolve_relative_session df base cue =
      .error "No comparable sessions found for that patient/game." := by
  unfold resolve_relative_session
  rw [hs, hg]
  simp only [session_number]
  rw [if_neg hp, hn]
  dsimp only
  rw [if_pos hemp]

/-- C4 (amended): with patient, game and a parseable base session set,
`previous` resolves to the dataset session holding the largest parsed number
strictly below the base number (an error when none exists), and `next` to the
smallest strictly above (an error when none exists).  Resolving `next` and
then `previous` from the resolved session returns the original base session
whenever both neighbors exist *and* the base session itself is the dataset's
session string for its number — without that extra condition the round trip
can land elsewhere (see `resolve_roundtrip_counterexample`). -/
theorem resolve_prev_next_spec :
    ∀ (df : DataFrame) (base : QuerySpec) (sb g : String) (bnum : ℕ),
      base.session = some sb →
      base.patient ≠ "__MISSING__" →
      base.game = some g →
      session_number_str sb = some bnum →
      (((∃ n ∈ pg_nums df base.patient g, n < bnum) →
          ∃ n s, resolve_relative_session df base "previous" = .ok s ∧
            n ∈ pg_nums df base.patient g ∧ n < bnum ∧ session_number_str s = some n ∧
            ∀ m ∈ pg_nums df base.patient g, m < bnum → m ≤ n) ∧
       ((∀ n ∈ pg_nums df base.patient g, ¬ n < bnum) →
          ∃ e, resolve_relative_session df base "previous" = .error e) ∧
       ((∃ n ∈ pg_nums df base.patient g, bnum < n) →
          ∃ n s, resolve_relative_session df base "next" = .ok s ∧
            n ∈ pg_nums df base.patient g ∧ bnum < n ∧ session_number_str s = some n ∧
            ∀ m ∈ pg_nums df base.patient g, bnum < m → n ≤ m) ∧
       ((∀ n ∈ pg_nums df base.patient g, ¬ bnum < n) →
          ∃ e, resolve_relative_session df base "next" = .error e) ∧
       (sessions_by_num (pg_numbered_sorted df base.patient g) bnum = sb →
          bnum ∈ pg_nums df base.patient g →
          (∃ n ∈ pg_nums df base.patient g, n < bnum) →
          (∃ n ∈ pg_nums df base.patient g, bnum < n) →
          ∀ s1, resolve_relative_session df base "next" = .ok s1 →
            resolve_relative_session df { base with session := some s1 } "previous" =
              .ok sb)) := by
  intro df base sb g bnum hs hp hg hn
  have hpair := pg_nums_pairwise df base.patient g
  refine ⟨?_, ?_, ?_, ?_, ?_⟩
  · -- previous, success
    rintro ⟨n0, hn0mem, hn0lt⟩
    have hne := pg_numbered_ne_nil_of_mem hn0mem
    rw [resolve_unfold_prev hs hp hg hn hne]
    have hfmem : n0 ∈ (pg_nums df base.patient g).filter (fun n => n < bnum) :=
      List.mem_filter.mpr ⟨hn0mem, decide_eq_true hn0lt⟩
    obtain ⟨nmax, hlast⟩ := exists_getLast?_of_ne_nil _ (List.ne_nil_of_mem hfmem)
    rw [hlast]
    have hnm := List.mem_filter.mp (mem_of_getLast?_eq hlast)
    have hnmlt : nmax < bnum := of_decide_eq_true hnm.2
    have hfilt := List.Pairwise.filter (R := (· ≤ ·)) (fun n => decide (n < bnum)) hpair
    obtain ⟨x, hxmem, hx1⟩ :
        ∃ x ∈ pg_numbered_sorted df base.patient g, x.1 = nmax := by
      rcases (mem_pg_nums_iff df base.patient g nmax).mp hnm.1 with ⟨s, hsmem⟩
      exact ⟨(nmax, s), hsmem, rfl⟩
    have hspair := sessions_by_num_spec ⟨x, hxmem, hx1⟩
    refine ⟨nmax, _, rfl, hnm.1, hnmlt,
      pg_numbered_parse ((mem_pg_numbered_sorted_iff df base.patient g _).mp hspair), ?_⟩
    intro m hm hmlt
    exact sorted_le_getLast hfilt hlast (List.mem_filter.mpr ⟨hm, decide_eq_true hmlt⟩)
  · -- previous, error
    intro hall
    by_cases hemp : pg_numbered df base.patient g = []
    · exact ⟨_, resolve_unfold_empty hs hp hg hn hemp "previous"⟩
    · rw [resolve_unfold_prev hs hp hg hn hemp]
      have hfnil : (pg_nums df base.patient g).filter (fun n => n < bnum) = [] := by
        rw [List.filter_eq_nil_iff]
        intro n hnn
        have := hall n hnn
        simp [this]
      rw [hfnil]
      exact ⟨_, rfl⟩
  · -- next, success
    rintro ⟨n0, hn0mem, hn0gt⟩
    have hne := pg_numbered_ne_nil_of_mem hn0mem
    rw [resolve_unfold_next hs hp hg hn hne]
    have hfmem : n0 ∈ (pg_nums df base.patient g).filter (fun n => bnum < n) :=
      List.mem_filter.mpr ⟨hn0mem, decide_eq_true hn0gt⟩
    obtain ⟨nmin, hhead⟩ : ∃ nmin,
        ((pg_nums df base.patient g).filter (fun n => bnum < n)).head? = some nmin := by
      cases hcase : ((pg_nums df base.patient g).filter (fun n => bnum < n)).head? with
      | none =>
        rw [List.head?_eq_none_iff] at hcase
        rw [hcase] at hfmem
        simp at hfmem
      | some v => exact ⟨v, rfl⟩
    rw [hhead]
    have hnm := List.mem_filter.mp (mem_of_head?_eq hhead)
    have hnmgt : bnum < nmin := of_decide_eq_true hnm.2
    have hfilt := List.Pairwise.filter (R := (· ≤ ·)) (fun n => decide (bnum < n)) hpair
    obtain ⟨x, hxmem, hx1⟩ :
        ∃ x ∈ pg_numbered_sorted df base.patient g, x.1 = nmin := by
      rcases (mem_pg_nums_iff df base.patient g nmin).mp hnm.1 with ⟨s, hsmem⟩
      exact ⟨(nmin, s), hsmem, rfl⟩
    have hspair := sessions_by_num_spec ⟨x, hxmem, hx1⟩
    refine ⟨nmin, _, rfl, hnm.1, hnmgt,
      pg_numbered_parse ((mem_pg_numbered_sorted_iff df base.patient g _).mp hspair), ?_⟩
    intro m hm hmgt
    exact sorted_head_le hfilt hhead (List.mem_filter.mpr ⟨hm, decide_eq_true hmgt⟩)
  · -- next, error
    intro hall
    by_cases hemp : pg_numbered df base.patient g = []
    · exact ⟨_, resolve_unfold_empty hs hp hg hn hemp "next"⟩
    · rw [resolve_unfold_next hs hp hg hn hemp]
      have hfnil : (pg_nums df base.patient g).filter (fun n => bnum < n) = [] := by
        rw [List.filter_eq_nil_iff]
        intro n hnn
        have := hall n hnn
        simp [this]
      rw [hfnil]
      exact ⟨_, rfl⟩
  · -- round trip
    intro hrep hbmem hlt hgt s1 hs1
    have hne := pg_numbered_ne_nil_of_mem hbmem
    rw [resolve_unfold_next hs hp hg hn hne] at hs1
    obtain ⟨n0, hn0mem, hn0gt⟩ := hgt
    have hfmem : n0 ∈ (pg_nums df base.patient g).filter (fun n => bnum < n) :=
      List.mem_filter.mpr ⟨hn0mem, decide_eq_true hn0gt⟩
    obtain ⟨nmin, hhead⟩ : ∃ nmin,
        ((pg_nums df base.patient g).filter (fun n => bnum < n)).head? = some nmin := by
      cases hcase : ((pg_nums df base.patient g).filter (fun n => bnum < n)).head? with
      | none =>
        rw [List.head?_eq_none_iff] at hcase
        rw [hcase] at hfmem
        simp at hfmem
      | some v => exact ⟨v, rfl⟩
    rw [hhead] at hs1
    have hs1v : sessions_by_num (pg_numbered_sorted df base.patient g) nmin = s1 :=
      Except.ok.inj hs1
    have hnm := List.mem_filter.mp (mem_of_head?_eq hhead)
    have hnmgt : bnum < nmin := of_decide_eq_true hnm.2
    have hfiltgt := List.Pairwise.filter (R := (· ≤ ·)) (fun n => decide (bnum < n)) hpair
    have hmin : ∀ m ∈ pg_nums df base.patient g, bnum < m → nmin ≤ m := by
      intro m hm hmgt
      exact sorted_head_le hfiltgt hhead (List.mem_filter.mpr ⟨hm, decide_eq_true hmgt⟩)
    -- parse number of the resolved session
    obtain ⟨x, hxmem, hx1⟩ :
        ∃ x ∈ pg_numbered_sorted df base.patient g, x.1 = nmin := by
      rcases (mem_pg_nums_iff df base.patient g nmin).mp hnm.1 with ⟨s, hsmem⟩
      exact ⟨(nmin, s), hsmem, rfl⟩
    have hspair := sessions_by_num_spec ⟨x, hxmem, hx1⟩
    rw [hs1v] at hspair
    have hs1parse : session_number_str s1 = some nmin :=
      pg_numbered_parse ((mem_pg_numbered_sorted_iff df base.patient g _).mp hspair)
    -- resolve "previous" from the updated base
    have hs2 : ({ base with session := some s1 } : QuerySpec).session = some s1 := rfl
    have hp2 : ({ base with session := some s1 } : QuerySpec).patient ≠ "__MISSING__" := hp
    have hg2 : ({ base with session := some s1 } : QuerySpec).game = some g := hg
    rw [@resolve_unfold_prev df { base with session := some s1 } s1 g nmin hs2 hp2 hg2
      hs1parse hne]
    have hlastprev :
        ((pg_nums df base.patient g).filter (fun n => n < nmin)).getLast? = some bnum := by
      apply getLast?_eq_of_mem_of_max
        (List.Pairwise.filter (R := (· ≤ ·)) (fun n => decide (n < nmin)) hpair)
      · exact List.mem_filter.mpr ⟨hbmem, decide_eq_true hnmgt⟩
      · intro m hm
        rcases List.mem_filter.mp hm with ⟨hmmem, hmlt⟩
        have hmlt2 : m < nmin := of_decide_eq_true hmlt
        by_cases hc : bnum < m
        · exact absurd (hmin m hmmem hc) (by omega)
        · omega
    rw [hlastprev]
    show Except.ok (sessions_by_num (pg_numbered_sorted df base.patient g) bnum) = Except.ok sb
    rw [hrep]

end RCP

namespace RCP

/-- C4 witness: with sessions 1, 2, 4 in the data and base `session_2`
(present in the data), `next` resolves to `session_4` and `previous` from
there returns the base `session_2`. -/
theorem resolve_prev_next_spec_witness :
    resolve_relative_session c4wdf c4wBase "next" = .ok "session_4" ∧
    resolve_relative_session c4wdf { c4wBase with session := some "session_4" } "previous" =
      .ok "session_2" := by
  have hnext : resolve_relative_session c4wdf c4wBase "next" = .ok "session_4" := by
    with_unfolding_all rfl
  exact ⟨hnext,
    (resolve_prev_next_spec c4wdf c4wBase "session_2" "game0" 2 rfl (by decide) rfl
        (by decide)).2.2.2.2 (by decide) (by decide) ⟨1, by decide, by decide⟩
      ⟨4, by decide, by decide⟩ "session_4" hnext⟩

/-- C4 counterexample: for base `session_3` over a dataset holding only
sessions 1 and 5, both neighbors exist (`previous` and `next` both resolve),
yet resolving `next` (`session_5`) and then `previous` from it returns
`session_1`, not the original base session `session_3` — the claimed
round-trip fails when the base session is absent from the dataset. -/
theorem resolve_roundtrip_counterexample :
    resolve_relative_session c4df c4ceBase "previous" = .ok "session_1" ∧
    resolve_relative_session c4df c4ceBase "next" = .ok "session_5" ∧
    resolve_relative_session c4df { c4ceBase with session := some "session_5" } "previous" =
      .ok "session_1" ∧
    c4ceBase.session = some "session_3" ∧
    ("session_1" : String) ≠ "session_3" := by
  refine ⟨by with_unfolding_all rfl, by with_unfolding_all rfl, by with_unfolding_all rfl, rfl,
    by decide⟩

end RCP

namespace RCP

theorem compare_two_sessions_ok_shape :
    ∀ (df : DataFrame) (base : QuerySpec) (other : String) (r : CompareReport),
      compare_two_sessions df base other = .ok r →
      ∃ sb ra rb ma mb, base.session = some sb ∧
        mean_metric_value ra = some ma ∧ mean_metric_value rb = some mb ∧
        r = compare_build base sb other ra rb ma mb := by
  intro df base other r h
  unfold compare_two_sessions at h
  cases hbs : base.session with
  | none => rw [hbs] at h; cases h
  | some sb =>
    rw [hbs] at h
    dsimp only at h
    split at h
    · cases h
    · split at h
      · cases h
      · split at h
        · cases h
        · rename_i ra hqa
          split at h
          · cases h
          · rename_i rb hqb
            cases hma : mean_metric_value ra with
            | none =>
              rw [hma] at h
              exact Except.noConfusion (show Except.error
                "One of the sessions has no numeric metric values." = Except.ok r from h)
            | some ma =>
              rw [hma] at h
              cases hmb : mean_metric_value rb with
              | none =>
                rw [hmb] at h
                exact Except.noConfusion (show Except.error
                  "One of the sessions has no numeric metric values." = Except.ok r from h)
              | some mb =>
                rw [hmb] at h
                exact ⟨sb, ra, rb, ma, mb, rfl, hma, hmb, (Except.ok.inj h).symm⟩

end RCP

namespace RCP

theorem compare_build_base_fields (base : QuerySpec) (sb o : String) (ra rb : List Row)
    (ma mb : ℚ) :
    (compare_build base sb o ra rb ma mb).session_a = sb ∧
    (compare_build base sb o ra rb ma mb).session_b = o ∧
    (compare_build base sb o ra rb ma mb).value_a = ma ∧
    (compare_build base sb o ra rb ma mb).value_b = mb ∧
    (compare_build base sb o ra rb ma mb).rows_a = ra ∧
    (compare_build base sb o ra rb ma mb).rows_b = rb :=
  ⟨rfl, rfl, rfl, rfl, rfl, rfl⟩

theorem compare_build_swap_true {base : QuerySpec} {sb o : String} {ra rb : List Row}
    {ma mb : ℚ}
    (hsw : compare_swap (session_number (some sb)) (session_number (some o))
      (min_date ra) (min_date rb) = true) :
    (compare_build base sb o ra rb ma mb).session_earlier = o ∧
    (compare_build base sb o ra rb ma mb).session_later = sb ∧
    (compare_build base sb o ra rb ma mb).value_earlier = mb ∧
    (compare_build base sb o ra rb ma mb).value_later = ma ∧
    (compare_build base sb o ra rb ma mb).rows_earlier = rb ∧
    (compare_build base sb o ra rb ma mb).rows_later = ra := by
  unfold compare_build
  rw [hsw]
  exact ⟨rfl, rfl, rfl, rfl, rfl, rfl⟩

theorem compare_build_swap_false {base : QuerySpec} {sb o : String} {ra rb : List Row}
    {ma mb : ℚ}
    (hsw : compare_swap (session_number (some sb)) (session_number (some o))
      (min_date ra) (min_date rb) = false) :
    (compare_build base sb o ra rb ma mb).session_earlier = sb ∧
    (compare_build base sb o ra rb ma mb).session_later = o ∧
    (compare_build base sb o ra rb ma mb).value_earlier = ma ∧
    (compare_build base sb o ra rb ma mb).value_later = mb ∧
    (compare_build base sb o ra rb ma mb).rows_earlier = ra ∧
    (compare_build base sb o ra rb ma mb).rows_later = rb := by
  unfold compare_build
  rw [hsw]
  exact ⟨rfl, rfl, rfl, rfl, rfl, rfl⟩

theorem compare_build_change (base : QuerySpec) (sb o : String) (ra rb : List Row)
    (ma mb : ℚ) :
    (compare_build base sb o ra rb ma mb).change_later_minus_earlier =
      (compare_build base sb o ra rb ma mb).value_later -
        (compare_build base sb o ra rb ma mb).value_earlier ∧
    (compare_build base sb o ra rb ma mb).diff_earlier_minus_later =
      -(compare_build base sb o ra rb ma mb).change_later_minus_earlier := by
  rcases Bool.eq_false_or_eq_true (compare_swap (session_number (some sb))
      (session_number (some o)) (min_date ra) (min_date rb)) with hsw | hsw <;>
    exact (by unfold compare_build; rw [hsw]; exact ⟨rfl, (neg_sub _ _).symm⟩)

theorem compare_swap_of_num {x y : ℕ} (dA dB : Option ℕ) (hne : x ≠ y) :
    compare_swap (some x) (some y) dA dB = decide (y < x) := by
  unfold compare_swap
  simp [hne]

theorem compare_swap_of_dates {numA numB : Option ℕ} {dA dB : Option ℕ} {u v : ℕ}
    (hnum : numA = none ∨ numB = none ∨ numA = numB)
    (hu : dA = some u) (hv : dB = some v) (hne : u ≠ v) :
    compare_swap numA numB dA dB = decide (v < u) := by
  subst hu
  subst hv
  unfold compare_swap
  rcases hnum with h | h | h
  · subst h
    cases numB <;> simp [hne]
  · subst h
    cases numA <;> simp [hne]
  · subst h
    cases numA <;> simp [hne]

theorem compare_swap_inconclusive {numA numB dA dB : Option ℕ}
    (hnum : numA = none ∨ numB = none ∨ numA = numB)
    (hdate : dA = none ∨ dB = none ∨ dA = dB) :
    compare_swap numA numB dA dB = false := by
  unfold compare_swap
  cases numA <;> cases numB <;> cases dA <;> cases dB <;> simp_all

end RCP

namespace RCP

/-- C5: in every successful `compare_two_sessions` report the earlier/later
labeling is decided by the parsed session numbers when both parse and differ,
otherwise by the sessions' earliest observed dates when both exist and
differ, otherwise the base session is labeled earlier;
`change_later_minus_earlier` is the later session's mean minus the earlier
session's mean and `diff_earlier_minus_later` is its negation; in particular
base `session_4` against `session_1` labels `session_1` earlier with change
`mean(session_4) - mean(session_1)`. -/
theorem compare_two_sessions_spec :
    ∀ (df : DataFrame) (base : QuerySpec) (other : String) (r : CompareReport),
      compare_two_sessions df base other = .ok r →
      (base.session = some r.session_a ∧
       r.session_b = other ∧
       mean_metric_value r.rows_a = some r.value_a ∧
       mean_metric_value r.rows_b = some r.value_b ∧
       mean_metric_value r.rows_earlier = some r.value_earlier ∧
       mean_metric_value r.rows_later = some r.value_later ∧
       r.change_later_minus_earlier = r.value_later - r.value_earlier ∧
       r.diff_earlier_minus_later = -r.change_later_minus_earlier ∧
       (∀ x y : ℕ, session_number_str r.session_a = some x →
          session_number_str r.session_b = some y → x ≠ y →
          ((x < y → r.session_earlier = r.session_a ∧ r.session_later = r.session_b ∧
              r.value_earlier = r.value_a ∧ r.value_later = r.value_b ∧
              r.rows_earlier = r.rows_a ∧ r.rows_later = r.rows_b) ∧
           (y < x → r.session_earlier = r.session_b ∧ r.session_later = r.session_a ∧
              r.value_earlier = r.value_b ∧ r.value_later = r.value_a ∧
              r.rows_earlier = r.rows_b ∧ r.rows_later = r.rows_a))) ∧
       ((session_number_str r.session_a = none ∨ session_number_str r.session_b = none ∨
         session_number_str r.session_a = session_number_str r.session_b) →
        ∀ u v : ℕ, min_date r.rows_a = some u → min_date r.rows_b = some v → u ≠ v →
          ((u < v → r.session_earlier = r.session_a ∧ r.session_later = r.session_b) ∧
           (v < u → r.session_earlier = r.session_b ∧ r.session_later = r.session_a))) ∧
       (((session_number_str r.session_a = none ∨ session_number_str r.session_b = none ∨
          session_number_str r.session_a = session_number_str r.session_b) ∧
         (min_date r.rows_a = none ∨ min_date r.rows_b = none ∨
          min_date r.rows_a = min_date r.rows_b)) →
        r.session_earlier = r.session_a ∧ r.session_later = r.session_b) ∧
       (r.session_a = "session_4" → r.session_b = "session_1" →
        r.session_earlier = "session_1" ∧ r.session_later = "session_4" ∧
        r.change_later_minus_earlier = r.value_a - r.value_b)) := by
  intro df base other r h
  obtain ⟨sb, ra, rb, ma, mb, hbs, hma, hmb, hr⟩ :=
    compare_two_sessions_ok_shape df base other r h
  subst hr
  obtain ⟨f1, f2, f3, f4, f5, f6⟩ := compare_build_base_fields base sb other ra rb ma mb
  obtain ⟨c1, c2⟩ := compare_build_change base sb other ra rb ma mb
  have hnumA : session_number (some sb) = session_number_str sb := rfl
  have hnumB : session_number (some other) = session_number_str other := rfl
  refine ⟨by rw [f1]; exact hbs, f2, by rw [f5, f3]; exact hma, by rw [f6, f4]; exact hmb,
    ?_, ?_, c1, c2, ?_, ?_, ?_, ?_⟩
  · rcases Bool.eq_false_or_eq_true (compare_swap (session_number (some sb))
        (session_number (some other)) (min_date ra) (min_date rb)) with hsw | hsw
    · obtain ⟨-, -, e3, -, e5, -⟩ := @compare_build_swap_true base sb other ra rb ma mb hsw
      rw [e5, e3]
      exact hmb
    · obtain ⟨-, -, e3, -, e5, -⟩ := @compare_build_swap_false base sb other ra rb ma mb hsw
      rw [e5, e3]
      exact hma
  · rcases Bool.eq_false_or_eq_true (compare_swap (session_number (some sb))
        (session_number (some other)) (min_date ra) (min_date rb)) with hsw | hsw
    · obtain ⟨-, -, -, e4, -, e6⟩ := @compare_build_swap_true base sb other ra rb ma mb hsw
      rw [e6, e4]
      exact hma
    · obtain ⟨-, -, -, e4, -, e6⟩ := @compare_build_swap_false base sb other ra rb ma mb hsw
      rw [e6, e4]
      exact hmb
  · -- ordering by parsed session numbers
    intro x y hx hy hne
    rw [f1] at hx
    rw [f2] at hy
    have hswv : compare_swap (session_number (some sb)) (session_number (some other))
        (min_date ra) (min_date rb) = decide (y < x) := by
      rw [hnumA, hnumB, hx, hy]
      exact compare_swap_of_num _ _ hne
    constructor
    · intro hlt
      have hfalse : compare_swap (session_number (some sb)) (session_number (some other))
          (min_date ra) (min_date rb) = false := by
        rw [hswv]
        simp only [decide_eq_false_iff_not]
        omega
      obtain ⟨e1, e2, e3, e4, e5, e6⟩ := @compare_build_swap_false base sb other ra rb ma mb hfalse
      exact ⟨by rw [e1, f1], by rw [e2, f2], by rw [e3, f3], by rw [e4, f4],
        by rw [e5, f5], by rw [e6, f6]⟩
    · intro hgt
      have htrue : compare_swap (session_number (some sb)) (session_number (some other))
          (min_date ra) (min_date rb) = true := by
        rw [hswv]
        simpa using hgt
      obtain ⟨e1, e2, e3, e4, e5, e6⟩ := @compare_build_swap_true base sb other ra rb ma mb htrue
      exact ⟨by rw [e1, f2], by rw [e2, f1], by rw [e3, f4], by rw [e4, f3],
        by rw [e5, f6], by rw [e6, f5]⟩
  · -- fallback ordering by earliest dates
    intro hnum u v hu hv hne
    rw [f1] at hnum
    rw [f2] at hnum
    rw [f5] at hu
    rw [f6] at hv
    have hnum2 : session_number (some sb) = none ∨ session_number (some other) = none ∨
        session_number (some sb) = session_number (some other) := by
      rw [hnumA, hnumB]
      exact hnum
    have hswv : compare_swap (session_number (some sb)) (session_number (some other))
        (min_date ra) (min_date rb) = decide (v < u) :=
      compare_swap_of_dates hnum2 hu hv hne
    constructor
    · intro hlt
      have hfalse : compare_swap (session_number (some sb)) (session_number (some other))
          (min_date ra) (min_date rb) = false := by
        rw [hswv]
        simp only [decide_eq_false_iff_not]
        omega
      obtain ⟨e1, e2, -, -, -, -⟩ := @compare_build_swap_false base sb other ra rb ma mb hfalse
      exact ⟨by rw [e1, f1], by rw [e2, f2]⟩
    · intro hgt
      have htrue : compare_swap (session_number (some sb)) (session_number (some other))
          (min_date ra) (min_date rb) = true := by
        rw [hswv]
        simpa using hgt
      obtain ⟨e1, e2, -, -, -, -⟩ := @compare_build_swap_true base sb other ra rb ma mb htrue
      exact ⟨by rw [e1, f2], by rw [e2, f1]⟩
  · -- both tie-breakers inconclusive: base first
    rintro ⟨hnum, hdate⟩
    rw [f1] at hnum
    rw [f2] at hnum
    rw [f5] at hdate
    rw [f6] at hdate
    have hnum2 : session_number (some sb) = none ∨ session_number (some other) = none ∨
        session_number (some sb) = session_number (some other) := by
      rw [hnumA, hnumB]
      exact hnum
    have hfalse : compare_swap (session_number (some sb)) (session_number (some other))
        (min_date ra) (min_date rb) = false :=
      compare_swap_inconclusive hnum2 hdate
    obtain ⟨e1, e2, -, -, -, -⟩ := @compare_build_swap_false base sb other ra rb ma mb hfalse
    exact ⟨by rw [e1, f1], by rw [e2, f2]⟩
  · -- the spec scenario: base session_4 against session_1
    intro h4 h1
    rw [f1] at h4
    rw [f2] at h1
    subst h4
    subst h1
    have htrue : compare_swap (session_number (some "session_4"))
        (session_number (some "session_1")) (min_date ra) (min_date rb) = true := by
      rw [hnumA, hnumB, show session_number_str "session_4" = some 4 from by decide,
        show session_number_str "session_1" = some 1 from by decide]
      rw [compare_swap_of_num _ _ (by omega : (4 : ℕ) ≠ 1)]
      decide
    obtain ⟨e1, e2, e3, e4, -, -⟩ :=
      @compare_build_swap_true base "session_4" "session_1" ra rb ma mb htrue
    refine ⟨by rw [e1], by rw [e2], ?_⟩
    rw [c1, e4, e3, f3, f4]

end RCP

namespace RCP

/-- C5 witness: base `session_4` (mean 5) against `session_1` (mean 3/2)
yields `session_earlier = "session_1"` and
`change_later_minus_earlier = mean(session_4) - mean(session_1) = 7/2`. -/
theorem compare_two_sessions_spec_witness :
    compare_two_sessions c5df c5spec "session_1" = .ok c5report ∧
    c5report.session_earlier = "session_1" ∧
    c5report.session_later = "session_4" ∧
    c5report.change_later_minus_earlier = c5report.value_a - c5report.value_b := by
  have hok : compare_two_sessions c5df c5spec "session_1" = .ok c5report := by
    with_unfolding_all rfl
  have hp := (compare_two_sessions_spec c5df c5spec "session_1" c5report
    hok).2.2.2.2.2.2.2.2.2.2.2 rfl rfl
  exact ⟨hok, hp.1, hp.2.1, hp.2.2⟩

end RCP

namespace RCP

/-- C1: for every per-group summary with at least two groups,
`classify_trend` takes the step deltas between consecutive group means, the
noise threshold `epsilon = max(1e-6, 0.01·|first mean|)`, counts a step as
improving when `delta·direction > epsilon` and worsening when
`delta·direction < -epsilon`, and labels: "no clear trend" when no non-flat
step exists, "improving" when `improving/(improving+worsening) ≥ 0.8`,
"worsening" when `worsening/(improving+worsening) ≥ 0.8`, and "variable"
when both directions occur and neither reaches 0.8.  In particular the
monotone mean sequence `[1.0, 1.2, 1.5, 2.0]` is labeled "improving". -/
theorem classify_trend_spec :
    (∀ (summary : List GroupSummary) (metric : String) (b : ℚ) (rest : List ℚ)
       (imp wor : ℕ),
       summary.map (fun r => r.mean_metric_value) = b :: rest →
       2 ≤ summary.length →
       imp = ((List.zipWith (fun x y => x - y) rest (b :: rest)).filter
         (fun d => decide (d * ((metric_improvement_direction metric : ℤ) : ℚ) >
            max (1 / 1000000) (|b| / 100)))).length →
       wor = ((List.zipWith (fun x y => x - y) rest (b :: rest)).filter
         (fun d => decide (d * ((metric_improvement_direction metric : ℤ) : ℚ) <
            -max (1 / 1000000) (|b| / 100)))).length →
       ((imp + wor = 0 → classify_trend summary metric =
           ⟨some "no clear trend", some "values stayed roughly stable between sessions"⟩) ∧
        (imp + wor ≠ 0 → (imp : ℚ) / ((imp : ℚ) + (wor : ℚ)) ≥ 4 / 5 →
           classify_trend summary metric =
             ⟨some "improving", some "values generally improved from session to session"⟩) ∧
        (imp + wor ≠ 0 → (wor : ℚ) / ((imp : ℚ) + (wor : ℚ)) ≥ 4 / 5 →
           classify_trend summary metric =
             ⟨some "worsening", some "values generally worsened from session to session"⟩) ∧
        (0 < imp → 0 < wor → ¬((imp : ℚ) / ((imp : ℚ) + (wor : ℚ)) ≥ 4 / 5) →
           ¬((wor : ℚ) / ((imp : ℚ) + (wor : ℚ)) ≥ 4 / 5) →
           classify_trend summary metric =
             ⟨some "variable", some "values fluctuated with rises and drops between sessions"⟩))) ∧
    classify_trend example4_summary "area" =
      ⟨some "improving", some "values generally improved from session to session"⟩ := by
  constructor
  · intro summary metric b rest imp wor hmap hlen himp hwor
    have hlen2 : ¬ summary.length < 2 := by omega
    unfold classify_trend
    rw [if_neg hlen2, hmap]
    dsimp only [List.tail_cons]
    rw [← himp, ← hwor]
    refine ⟨?_, ?_, ?_, ?_⟩
    · intro h0
      rw [if_pos h0]
    · intro hne hge
      rw [if_neg hne, if_pos hge]
    · intro hne hge
      have ht : (0 : ℚ) < (imp : ℚ) + (wor : ℚ) := by
        have : 0 < imp + wor := Nat.pos_of_ne_zero hne
        exact_mod_cast this
      have hsum : (imp : ℚ) / ((imp : ℚ) + (wor : ℚ)) +
          (wor : ℚ) / ((imp : ℚ) + (wor : ℚ)) = 1 := by
        field_simp
      have hlt : ¬((imp : ℚ) / ((imp : ℚ) + (wor : ℚ)) ≥ 4 / 5) := by
        intro hcon
        have hnn : (0 : ℚ) ≤ (wor : ℚ) / ((imp : ℚ) + (wor : ℚ)) :=
          div_nonneg (by positivity) (le_of_lt ht)
        nlinarith
      rw [if_neg hne, if_neg hlt, if_pos hge]
    · intro himp0 hwor0 hni hnw
      have hne : imp + wor ≠ 0 := by omega
      rw [if_neg hne, if_neg hni, if_neg hnw, if_pos ⟨himp0, hwor0⟩]
  · with_unfolding_all rfl

end RCP

namespace RCP

/-- C1 witness: the spec's monotone example, with 3 improving steps and 0
worsening steps, classified via the general characterization. -/
theorem classify_trend_spec_witness :
    2 ≤ example4_summary.length ∧
    classify_trend example4_summary "area" =
      ⟨some "improving", some "values generally improved from session to session"⟩ := by
  refine ⟨by decide, ?_⟩
  exact (classify_trend_spec.1 example4_summary "area" 1 [12/10, 15/10, 2] 3 0
    (by with_unfolding_all rfl) (by decide) (by with_unfolding_all rfl)
    (by with_unfolding_all rfl)).2.1 (by decide) (by with_unfolding_all decide)

end RCP
